import Mathlib

/-!
Shallow embedding of `pkg/driver/node.go` of the jiva-csi repository.

The node server's external collaborators (the Kubernetes client for the
JivaVolume record store, the mounter, the iSCSI library, the OS and the
network) are modelled as clock-indexed oracles collected in `World`: the
result of the k-th external call is given by the oracle at clock k, so a
single deterministic `World` value can describe any time-varying behaviour
of the environment.  Every external call (and every guard operation) is
recorded in an effect trace carried by `NodeState`, which makes "no side
effect occurred" and "the persisted record carried fsType f" stateable.

Components of the repository that are referenced by `node.go` but whose
source is not part of `src/` (`request.Transition`, `utils.StripName`,
`isValidVolumeCapabilities`, the mounter wrappers) are modelled from the
specification; each such definition carries a doc comment starting with
"Modelled from the spec:".
-/

namespace JivaCSI

/-- gRPC status codes used by node.go. -/
inductive Code
  | invalidArgument
  | aborted
  | failedPrecondition
  | notFound
  | internal
  | unimplemented
  deriving Repr, DecidableEq

/-- A plain Go error value: its message together with the two
classification predicates node.go consults on errors
(k8s apimachinery `errors.IsNotFound` and `os.IsNotExist`). -/
structure GoErr where
  msg : String
  isNotFound : Bool := false
  isNotExist : Bool := false
  deriving Repr, DecidableEq

/-- An error returned by an RPC handler: either a grpc status error
(`status.Error`/`status.Errorf`) or a plain Go error propagated without a
status code (as in the re-fetch `return nil, err` of NodeStageVolume). -/
inductive Err
  | grpc (code : Code) (msg : String)
  | go (e : GoErr)
  deriving Repr, DecidableEq

/-- `err.Error()`: the textual form used where node.go re-wraps an error
message into a new status error. -/
def Err.message : Err → String
  | .grpc c m => "rpc error: code = " ++ reprStr c ++ " desc = " ++ m
  | .go e => e.msg

/-- JivaVolume phases (jiva-operator API); node.go only distinguishes
`JivaVolumePhaseReady` from the rest. -/
inductive JivaVolumePhase
  | pending
  | syncing
  | ready
  | failed
  | other
  deriving Repr, DecidableEq

/-- `jv.ISCSISpec`: target endpoint of the volume. -/
structure ISCSISpec where
  targetIP : String
  targetPort : Int
  iqn : String
  deriving Repr, DecidableEq

/-- `jv.MountInfo`: mount metadata written back by the node server. -/
structure MountInfo where
  fsType : String
  devicePath : String
  path : String
  deriving Repr, DecidableEq

/-- `jv.ReplicaStatus`: only its presence in the list matters to node.go. -/
structure ReplicaStatus where
  address : String := ""
  mode : String := ""
  deriving Repr, DecidableEq

/-- The status sub-record of a JivaVolume. -/
structure JivaVolumeStatus where
  phase : JivaVolumePhase
  status : String
  replicaStatuses : List ReplicaStatus
  deriving Repr, DecidableEq

/-- The spec sub-record of a JivaVolume. -/
structure JivaVolumeSpec where
  iscsiSpec : ISCSISpec
  mountInfo : MountInfo
  deriving Repr, DecidableEq

/-- `jv.JivaVolume`: the externally owned volume record. -/
structure JivaVolume where
  name : String
  spec : JivaVolumeSpec
  status : JivaVolumeStatus
  deriving Repr, DecidableEq

/-- `fmt.Sprintf("%v:%v", TargetIP, TargetPort)` as used for dial targets,
iSCSI portals and disconnect portals. -/
def targetPortal (i : ISCSISpec) : String :=
  i.targetIP ++ ":" ++ toString i.targetPort

/-- `iscsi.Connector` as filled in by attachDisk. -/
structure Connector where
  volumeName : String
  targetIqn : String
  lun : Int
  iface : String
  targetPortals : List String
  doDiscovery : Bool
  deriving Repr, DecidableEq

/-- FSTypeExt2 represents the ext2 filesystem type. -/
def FSTypeExt2 : String := "ext2"
/-- FSTypeExt3 represents the ext3 filesystem type. -/
def FSTypeExt3 : String := "ext3"
/-- FSTypeExt4 represents the ext4 filesystem type. -/
def FSTypeExt4 : String := "ext4"
/-- FSTypeXfs represents the xfs filesystem type. -/
def FSTypeXfs : String := "xfs"

/-- The configured default filesystem type. -/
def defaultFsType : String := FSTypeExt4

/-- ValidFSTypes is the supported filesystem list of the driver. -/
def ValidFSTypes : List String := [FSTypeExt2, FSTypeExt3, FSTypeExt4, FSTypeXfs]

/-- defaultISCSILUN. -/
def defaultISCSILUN : Int := 0
/-- defaultISCSIInterface. -/
def defaultISCSIInterface : String := "default"

/-- The mount part of a CSI VolumeCapability (fs type and mount flags). -/
structure MountCap where
  fsType : String
  mountFlags : List String
  deriving Repr, DecidableEq

/-- The access-type oneof of a CSI VolumeCapability; `mount` carries the
inner Mount message, which the protobuf allows to be nil. -/
inductive AccessType
  | unset
  | block
  | mount (m : Option MountCap)
  deriving Repr, DecidableEq

/-- A CSI VolumeCapability.  `modeSupported` — Modelled from the spec:
`isValidVolumeCapabilities` (pkg/driver, not in src/) checks that the
capability requests one of the driver's supported access modes; the check
result is carried as a field of the capability. -/
structure VolumeCapability where
  accessType : AccessType
  modeSupported : Bool
  deriving Repr, DecidableEq

/-- `volCap.GetMount()`: the inner Mount message when the access type is
Mount, nil otherwise. -/
def VolumeCapability.getMount : VolumeCapability → Option MountCap
  | ⟨.mount m, _⟩ => m
  | _ => none

/-- Modelled from the spec: `isValidVolumeCapabilities` (pkg/driver, not in
src/) answers whether every capability is "present and of a supported
mode". -/
def isValidVolumeCapabilities (caps : List VolumeCapability) : Bool :=
  caps.all (·.modeSupported)

/-- Modelled from the spec: `utils.StripName` (pkg/utils, not in src/)
normalizes a request-supplied volume ID: "request-supplied IDs are
normalized (name-prefix stripped) before use as the record key and lock
key".  The configured name marker is stripped when it heads the ID. -/
def stripName (pfx s : String) : String :=
  if pfx.data.isPrefixOf s.data then String.mk (s.data.drop pfx.data.length) else s

/-- The configuration of the embedding: the `MaxRetryCount` package global
and the name marker stripped by `stripName`. -/
structure Config where
  maxRetryCount : Nat
  pfx : String

/-- `csi.NodeStageVolumeRequest` (the fields node.go reads). -/
structure NodeStageVolumeRequest where
  volumeId : String
  stagingTargetPath : String
  volumeCapability : Option VolumeCapability
  deriving Repr, DecidableEq

/-- `nodeStageRequest`: the validated, normalized staging parameters. -/
structure nodeStageRequest where
  stagingPath : String
  fsType : String
  volumeID : String
  deriving Repr, DecidableEq

/-- `csi.NodeUnstageVolumeRequest`. -/
structure NodeUnstageVolumeRequest where
  volumeId : String
  stagingTargetPath : String
  deriving Repr, DecidableEq

/-- `csi.NodePublishVolumeRequest` (the fields node.go reads). -/
structure NodePublishVolumeRequest where
  volumeId : String
  targetPath : String
  stagingTargetPath : String
  volumeCapability : Option VolumeCapability
  readonly : Bool
  deriving Repr, DecidableEq

/-- `csi.NodeUnpublishVolumeRequest`. -/
structure NodeUnpublishVolumeRequest where
  volumeId : String
  targetPath : String
  deriving Repr, DecidableEq

/-- `csi.NodeGetVolumeStatsRequest`. -/
structure NodeGetVolumeStatsRequest where
  volumeId : String
  volumePath : String
  deriving Repr, DecidableEq

/-- `csi.NodeStageVolumeResponse` (empty message). -/
structure NodeStageVolumeResponse where
  deriving Repr, DecidableEq

/-- `csi.NodeUnstageVolumeResponse` (empty message). -/
structure NodeUnstageVolumeResponse where
  deriving Repr, DecidableEq

/-- `csi.NodePublishVolumeResponse` (empty message). -/
structure NodePublishVolumeResponse where
  deriving Repr, DecidableEq

/-- `csi.NodeUnpublishVolumeResponse` (empty message). -/
structure NodeUnpublishVolumeResponse where
  deriving Repr, DecidableEq

/-- An entry of the OS mount table as returned by `mounter.List()`. -/
structure MountPoint where
  path : String
  device : String := ""
  deriving Repr, DecidableEq

/-- Modelled from the spec: the OS-level usage statistics produced by
`getStatistics` (pkg/driver, not in src/), carried opaquely. -/
structure VolumeStats where
  availableBytes : Int := 0
  totalBytes : Int := 0
  usedBytes : Int := 0
  availableInodes : Int := 0
  totalInodes : Int := 0
  usedInodes : Int := 0
  deriving Repr, DecidableEq

/-- `csi.NodeGetVolumeStatsResponse`. -/
structure NodeGetVolumeStatsResponse where
  usage : VolumeStats
  deriving Repr, DecidableEq

/-- One observable action of the node server: a guard operation, a call to
an external collaborator, or a sleep. -/
inductive Effect
  | guardInsert (id : String) (ok : Bool)
  | guardDelete (id : String)
  | clientSet
  | clientGet (volID : String)
  | clientUpdate (vol : JivaVolume)
  | mounterList
  | getDeviceName (mountPath : String)
  | mounterUnmount (target : String)
  | isLikelyNotMountPoint (path : String)
  | formatAndMountCall (device target fstype : String) (options : List String)
  | mounterMount (source target fstype : String) (options : List String)
  | existsPath (path : String)
  | iscsiConnect (c : Connector)
  | iscsiDisconnect (iqn : String) (portals : List String)
  | mkdirAll (path : String) (perm : Nat)
  | chmod (path : String) (perm : Nat)
  | removeAll (path : String)
  | remove (path : String)
  | netDial (address : String)
  | sleep (seconds : Nat)
  | getStatisticsCall (path : String)
  deriving Repr, DecidableEq

/-- The environment: the outcome of the k-th external call, for every call
site, as a function of the global call clock. -/
structure World where
  clientSetRes : Nat → Option GoErr
  clientGetRes : Nat → String → Except GoErr JivaVolume
  clientUpdateRes : Nat → JivaVolume → Option GoErr
  mounterListRes : Nat → Except GoErr (List MountPoint)
  getDeviceNameRes : Nat → String → Except GoErr (String × Nat)
  unmountRes : Nat → String → Option GoErr
  notMountPointRes : Nat → String → Bool × Option GoErr
  formatAndMountRes : Nat → String → String → String → List String → Option GoErr
  mountRes : Nat → String → String → String → List String → Option GoErr
  existsPathRes : Nat → String → Except GoErr Bool
  connectRes : Nat → Connector → Except GoErr String
  disconnectRes : Nat → String → List String → Option GoErr
  mkdirAllRes : Nat → String → Option GoErr
  chmodRes : Nat → String → Option GoErr
  removeAllRes : Nat → String → Option GoErr
  removeRes : Nat → String → Option GoErr
  dialRes : Nat → String → Option GoErr
  statisticsRes : Nat → String → Except GoErr VolumeStats

/-- The in-process state threaded through a run: the transition set, the
global call clock and the effect trace. -/
structure NodeState where
  transition : List String
  clock : Nat
  trace : List Effect
  deriving Repr, DecidableEq

/-- Record one action: bump the clock and append to the trace. -/
def consult (e : Effect) (s : NodeState) : NodeState :=
  { s with clock := s.clock + 1, trace := s.trace ++ [e] }

/-- Modelled from the spec: `request.Transition.Insert` (pkg/request, not
in src/) — atomic test-and-insert on the process-wide transition set; a
busy ID returns failure immediately. -/
def transitionInsert (id : String) (s : NodeState) : Bool × NodeState :=
  if id ∈ s.transition then (false, consult (.guardInsert id false) s)
  else (true, { consult (.guardInsert id true) s with transition := id :: s.transition })

/-- Modelled from the spec: `request.Transition.Delete` (pkg/request, not
in src/) — unconditional, idempotent removal from the transition set. -/
def transitionDelete (id : String) (s : NodeState) : NodeState :=
  { consult (.guardDelete id) s with transition := s.transition.filter (· ≠ id) }

/-- `ns.client.Set()`. -/
def clientSetOp (w : World) (s : NodeState) : Option GoErr × NodeState :=
  (w.clientSetRes s.clock, consult .clientSet s)

/-- `ns.client.GetJivaVolume(volID)`. -/
def clientGetOp (w : World) (volID : String) (s : NodeState) :
    Except GoErr JivaVolume × NodeState :=
  (w.clientGetRes s.clock volID, consult (.clientGet volID) s)

/-- `ns.client.UpdateJivaVolume(instance)`. -/
def clientUpdateOp (w : World) (vol : JivaVolume) (s : NodeState) :
    Option GoErr × NodeState :=
  (w.clientUpdateRes s.clock vol, consult (.clientUpdate vol) s)

/-- `ns.mounter.List()`. -/
def mounterListOp (w : World) (s : NodeState) :
    Except GoErr (List MountPoint) × NodeState :=
  (w.mounterListRes s.clock, consult .mounterList s)

/-- `ns.mounter.GetDeviceName(target)`: device name and reference count. -/
def getDeviceNameOp (w : World) (mountPath : String) (s : NodeState) :
    Except GoErr (String × Nat) × NodeState :=
  (w.getDeviceNameRes s.clock mountPath, consult (.getDeviceName mountPath) s)

/-- `ns.mounter.Unmount(target)`. -/
def mounterUnmountOp (w : World) (target : String) (s : NodeState) :
    Option GoErr × NodeState :=
  (w.unmountRes s.clock target, consult (.mounterUnmount target) s)

/-- `ns.mounter.IsLikelyNotMountPoint(path)`: Go returns both a boolean and
an error, so the oracle does too. -/
def notMountPointOp (w : World) (path : String) (s : NodeState) :
    (Bool × Option GoErr) × NodeState :=
  (w.notMountPointRes s.clock path, consult (.isLikelyNotMountPoint path) s)

/-- `ns.mounter.FormatAndMount(devicePath, mntPath, fsType, options)`. -/
def formatAndMountOp (w : World) (device target fstype : String)
    (options : List String) (s : NodeState) : Option GoErr × NodeState :=
  (w.formatAndMountRes s.clock device target fstype options,
    consult (.formatAndMountCall device target fstype options) s)

/-- `ns.mounter.Mount(source, target, fsType, mountOptions)`. -/
def mounterMountOp (w : World) (source target fstype : String)
    (options : List String) (s : NodeState) : Option GoErr × NodeState :=
  (w.mountRes s.clock source target fstype options,
    consult (.mounterMount source target fstype options) s)

/-- `ns.mounter.ExistsPath(volumePath)`. -/
def existsPathOp (w : World) (path : String) (s : NodeState) :
    Except GoErr Bool × NodeState :=
  (w.existsPathRes s.clock path, consult (.existsPath path) s)

/-- `iscsi.Connect(connector)`. -/
def connectOp (w : World) (c : Connector) (s : NodeState) :
    Except GoErr String × NodeState :=
  (w.connectRes s.clock c, consult (.iscsiConnect c) s)

/-- `iscsi.Disconnect(iqn, portals)`. -/
def disconnectOp (w : World) (iqn : String) (portals : List String)
    (s : NodeState) : Option GoErr × NodeState :=
  (w.disconnectRes s.clock iqn portals, consult (.iscsiDisconnect iqn portals) s)

/-- `os.MkdirAll(path, perm)`. -/
def mkdirAllOp (w : World) (path : String) (perm : Nat) (s : NodeState) :
    Option GoErr × NodeState :=
  (w.mkdirAllRes s.clock path, consult (.mkdirAll path perm) s)

/-- `os.Chmod(path, perm)`. -/
def chmodOp (w : World) (path : String) (perm : Nat) (s : NodeState) :
    Option GoErr × NodeState :=
  (w.chmodRes s.clock path, consult (.chmod path perm) s)

/-- `os.RemoveAll(path)`. -/
def removeAllOp (w : World) (path : String) (s : NodeState) :
    Option GoErr × NodeState :=
  (w.removeAllRes s.clock path, consult (.removeAll path) s)

/-- `os.Remove(path)`. -/
def removeOp (w : World) (path : String) (s : NodeState) :
    Option GoErr × NodeState :=
  (w.removeRes s.clock path, consult (.remove path) s)

/-- `net.Dial("tcp", targetPortal)`: none means the dial succeeded. -/
def dialOp (w : World) (address : String) (s : NodeState) :
    Option GoErr × NodeState :=
  (w.dialRes s.clock address, consult (.netDial address) s)

/-- `getStatistics(volumePath)`. -/
def statisticsOp (w : World) (path : String) (s : NodeState) :
    Except GoErr VolumeStats × NodeState :=
  (w.statisticsRes s.clock path, consult (.getStatisticsCall path) s)

/-- `time.Sleep(n * time.Second)`. -/
def sleepOp (n : Nat) (s : NodeState) : NodeState :=
  consult (.sleep n) s

/-- `strings.Contains(hay, sub)`. -/
def strContains (hay sub : String) : Bool :=
  decide (sub.data <:+: hay.data)

/-- `ns.doesVolumeExist(volID)`: strip the name, refresh the client, fetch
the record; a missing record maps to NotFound, other failures to
Internal. -/
def doesVolumeExist (cfg : Config) (w : World) (volID : String) (s : NodeState) :
    Except Err JivaVolume × NodeState :=
  let volID := stripName cfg.pfx volID
  match clientSetOp w s with
  | (some e, s) => (.error (.grpc .internal e.msg), s)
  | (none, s) =>
    match clientGetOp w volID s with
    | (.error e, s) =>
      if e.isNotFound then (.error (.grpc .notFound e.msg), s)
      else (.error (.grpc .internal e.msg), s)
    | (.ok inst, s) => (.ok inst, s)

/-- The loop of `ns.waitForVolumeToBeReady`, with the remaining retry
budget as explicit fuel: the Go loop continues while the post-increment
retry counter is at most MaxRetryCount, so fuel `MaxRetryCount - (retry-1)`
reaches 0 exactly when the loop breaks.  The RO / empty-replica-status
branches of the source differ only in the warning they log before
`continue`, so they collapse to the same recursive call. -/
def waitForVolumeToBeReadyLoop (cfg : Config) (w : World) (volID : String) :
    Nat → Nat → NodeState → Except Err JivaVolume × NodeState
  | fuel, sleepInterval, s =>
    let s := sleepOp sleepInterval s
    match doesVolumeExist cfg w volID s with
    | (.error e, s) => (.error e, s)
    | (.ok inst, s) =>
      if inst.status.phase = JivaVolumePhase.ready ∧ inst.status.status = "RW" then
        (.ok inst, s)
      else
        match fuel with
        | fuel + 1 => waitForVolumeToBeReadyLoop cfg w volID fuel 5 s
        | 0 => (.error (.go { msg := "Max retry count exceeded, volume is not ready" }), s)

/-- `ns.waitForVolumeToBeReady(volID)`: first check immediate
(sleepInterval 0), then up to MaxRetryCount delayed re-checks. -/
def waitForVolumeToBeReady (cfg : Config) (w : World) (volID : String)
    (s : NodeState) : Except Err JivaVolume × NodeState :=
  waitForVolumeToBeReadyLoop cfg w volID cfg.maxRetryCount 0 s

/-- The loop of `ns.waitForVolumeToBeReachable`: the Go loop gives up when
the post-increment retries counter reaches MaxRetryCount, i.e. after
MaxRetryCount dial attempts, so the fuel is `MaxRetryCount - 1` failed
re-dials after the first attempt. -/
def waitForVolumeToBeReachableLoop (w : World) (portal : String) :
    Nat → NodeState → Option GoErr × NodeState
  | fuel, s =>
    match dialOp w portal s with
    | (none, s) => (none, s)
    | (some dialErr, s) =>
      let s := sleepOp 2 s
      match fuel with
      | fuel + 1 => waitForVolumeToBeReachableLoop w portal fuel s
      | 0 =>
        (some { msg := "iSCSI Target not reachable, TargetPortal " ++ portal ++
          ", err:" ++ dialErr.msg }, s)

/-- `ns.waitForVolumeToBeReachable(targetPortal)`. -/
def waitForVolumeToBeReachable (cfg : Config) (w : World) (portal : String)
    (s : NodeState) : Option GoErr × NodeState :=
  waitForVolumeToBeReachableLoop w portal (cfg.maxRetryCount - 1) s

/-- `ns.attachDisk(instance)`: build the iSCSI connector, connect, and
reject an empty returned device path. -/
def attachDisk (w : World) (inst : JivaVolume) (s : NodeState) :
    Except GoErr String × NodeState :=
  let connector : Connector :=
    { volumeName := inst.name
      targetIqn := inst.spec.iscsiSpec.iqn
      lun := defaultISCSILUN
      iface := defaultISCSIInterface
      targetPortals := [targetPortal inst.spec.iscsiSpec]
      doDiscovery := true }
  match connectOp w connector s with
  | (.error e, s) => (.error e, s)
  | (.ok devicePath, s) =>
    if devicePath = "" then
      (.error { msg := "connect reported success, but no path returned" }, s)
    else (.ok devicePath, s)

/-- `ns.validateStagingReq(req)`. -/
def validateStagingReq (cfg : Config) (req : NodeStageVolumeRequest) :
    Except Err nodeStageRequest :=
  let volumeID := req.volumeId
  if volumeID.length = 0 then .error (.grpc .invalidArgument "Volume ID not provided")
  else
    let volID := stripName cfg.pfx volumeID
    match req.volumeCapability with
    | none => .error (.grpc .invalidArgument "Volume capability not provided")
    | some volCap =>
      if ¬ isValidVolumeCapabilities [volCap] then
        .error (.grpc .invalidArgument "Volume capability not supported")
      else
        match volCap.getMount with
        | none =>
          .error (.grpc .invalidArgument
            "NodeStageVolume: mount is nil within volume capability")
        | some mount =>
          let fsType := if mount.fsType.length = 0 then defaultFsType else mount.fsType
          let stagingPath := req.stagingTargetPath
          if stagingPath.length = 0 then
            .error (.grpc .invalidArgument "staging path is empty")
          else
            .ok { volumeID := volID, fsType := fsType, stagingPath := stagingPath }

/-- `ns.isAlreadyMounted(volID, path)`: collect the distinct mount paths
containing the volume ID; with more than one, the request path must be
among them. -/
def isAlreadyMounted (w : World) (volID path : String) (s : NodeState) :
    Option GoErr × NodeState :=
  match mounterListOp w s with
  | (.error _, s) => (some { msg := "Failed to list mount paths" }, s)
  | (.ok mountList, s) =>
    let currentMounts :=
      ((mountList.filter (fun m => strContains m.path volID)).map MountPoint.path).dedup
    if currentMounts.length > 1 then
      if path ∈ currentMounts then (none, s)
      else (some { msg := "Volume is already mounted at more than one place" }, s)
    else (none, s)

/-- `req.GetVolumeCapability().GetMount().GetFsType()`: the nil-safe getter
chain on the raw request, as read back inside formatAndMount. -/
def reqRawFsType (req : NodeStageVolumeRequest) : String :=
  ((req.volumeCapability.bind VolumeCapability.getMount).map MountCap.fsType).getD ""

/-- `req.GetVolumeCapability().GetMount().GetMountFlags()`. -/
def reqRawMountFlags (req : NodeStageVolumeRequest) : List String :=
  ((req.volumeCapability.bind VolumeCapability.getMount).map MountCap.mountFlags).getD []

/-- `ns.formatAndMount(req, devicePath)`: note that the fsType handed to
the mounter is read back from the raw request capability, not from the
validated parameters. -/
def formatAndMount (w : World) (req : NodeStageVolumeRequest)
    (devicePath : String) (s : NodeState) : Option GoErr × NodeState :=
  let mntPath := req.stagingTargetPath
  let ((notMnt, err), s) := notMountPointOp w mntPath s
  let mkdirStep : Option GoErr × NodeState :=
    match err with
    | some e => if ¬ e.isNotExist then mkdirAllOp w mntPath 0o750 s else (none, s)
    | none => (none, s)
  match mkdirStep with
  | (some e, s) => (some e, s)
  | (none, s) =>
    if ¬ notMnt then (none, s)
    else
      let fsType := reqRawFsType req
      let options : List String := []
      let mountFlags := reqRawMountFlags req
      let options := options ++ mountFlags
      match formatAndMountOp w devicePath mntPath fsType options s with
      | (some e, s) => (some e, s)
      | (none, s) => (none, s)

/-- The mountInfo write of NodeStageVolume (lines 280-282 of node.go): the
re-fetched record with the validated fsType, the attached device path and
the staging path set in its mountInfo. -/
def stagedRecord (inst : JivaVolume) (rp : nodeStageRequest)
    (devicePath : String) : JivaVolume :=
  { inst with spec := { inst.spec with mountInfo :=
    { fsType := rp.fsType
      devicePath := devicePath
      path := rp.stagingPath } } }

/-- The body of NodeStageVolume between guard acquisition and the deferred
guard release. -/
def nodeStageVolumeOp (cfg : Config) (w : World) (req : NodeStageVolumeRequest)
    (reqParam : nodeStageRequest) (s : NodeState) :
    Except Err NodeStageVolumeResponse × NodeState :=
  match waitForVolumeToBeReady cfg w reqParam.volumeID s with
  | (.error e, s) => (.error (.grpc .failedPrecondition e.message), s)
  | (.ok inst, s) =>
    match isAlreadyMounted w reqParam.volumeID reqParam.stagingPath s with
    | (some e, s) => (.error (.go e), s)
    | (none, s) =>
      match waitForVolumeToBeReachable cfg w (targetPortal inst.spec.iscsiSpec) s with
      | (some e, s) => (.error (.grpc .failedPrecondition e.msg), s)
      | (none, s) =>
        match attachDisk w inst s with
        | (.error e, s) => (.error (.grpc .internal e.msg), s)
        | (.ok devicePath, s) =>
          match clientGetOp w reqParam.volumeID s with
          | (.error e, s) => (.error (.go e), s)
          | (.ok inst, s) =>
            let inst := stagedRecord inst reqParam devicePath
            match clientUpdateOp w inst s with
            | (some e, s) => (.error (.grpc .internal e.msg), s)
            | (none, s) =>
              match mkdirAllOp w reqParam.stagingPath 0o750 s with
              | (some e, s) => (.error (.grpc .internal e.msg), s)
              | (none, s) =>
                match formatAndMount w req inst.spec.mountInfo.devicePath s with
                | (some e, s) => (.error (.grpc .internal e.msg), s)
                | (none, s) => (.ok {}, s)

/-- `ns.NodeStageVolume(req)`: validate, acquire the guard, run the staging
sequence, and release the guard on every exit path (the Go defer). -/
def NodeStageVolume (cfg : Config) (w : World) (req : NodeStageVolumeRequest)
    (s : NodeState) : Except Err NodeStageVolumeResponse × NodeState :=
  match validateStagingReq cfg req with
  | .error e => (.error e, s)
  | .ok reqParam =>
    match transitionInsert reqParam.volumeID s with
    | (false, s) =>
      (.error (.grpc .aborted ("an operation on this volume=" ++ reqParam.volumeID ++
        " is already in progress")), s)
    | (true, s) =>
      let (r, s) := nodeStageVolumeOp cfg w req reqParam s
      (r, transitionDelete reqParam.volumeID s)

/-- The body of NodeUnstageVolume between guard acquisition and the
deferred guard release. -/
def nodeUnstageVolumeOp (cfg : Config) (w : World) (volID target : String)
    (s : NodeState) : Except Err NodeUnstageVolumeResponse × NodeState :=
  match getDeviceNameOp w target s with
  | (.error e, s) =>
    (.error (.grpc .internal ("failed to check if volume is mounted: " ++ e.msg)), s)
  | (.ok (_dev, refCount), s) =>
    if refCount = 0 then (.ok {}, s)
    else
      -- a reference count above one only logs a warning
      match mounterUnmountOp w target s with
      | (some e, s) =>
        (.error (.grpc .internal ("Could not unmount target " ++ target ++ ": " ++ e.msg)), s)
      | (none, s) =>
        match doesVolumeExist cfg w volID s with
        | (.error e, s) => (.error e, s)
        | (.ok inst, s) =>
          match disconnectOp w inst.spec.iscsiSpec.iqn
              [targetPortal inst.spec.iscsiSpec] s with
          | (some e, s) => (.error (.grpc .internal e.msg), s)
          | (none, s) =>
            match removeAllOp w inst.spec.mountInfo.path s with
            | (some e, s) => (.error (.grpc .internal e.msg), s)
            | (none, s) => (.ok {}, s)

/-- `ns.NodeUnstageVolume(req)`: note that the guard is keyed by the raw
request volume ID while the record fetch normalizes it. -/
def NodeUnstageVolume (cfg : Config) (w : World) (req : NodeUnstageVolumeRequest)
    (s : NodeState) : Except Err NodeUnstageVolumeResponse × NodeState :=
  let volID := req.volumeId
  if volID = "" then
    (.error (.grpc .invalidArgument "NodeUnstageVolume Volume ID must be provided"), s)
  else
    let target := req.stagingTargetPath
    if target.length = 0 then
      (.error (.grpc .invalidArgument "Staging target not provided"), s)
    else
      match transitionInsert volID s with
      | (false, s) =>
        (.error (.grpc .aborted ("an operation on this volume=" ++ volID ++
          " is already in progress")), s)
      | (true, s) =>
        let (r, s) := nodeUnstageVolumeOp cfg w volID target s
        (r, transitionDelete volID s)

/-- `hasOption(options, opt)` (closure inside
nodePublishVolumeForFileSystem). -/
def hasOption (options : List String) (opt : String) : Bool :=
  options.contains opt

/-- `ns.nodePublishVolumeForFileSystem(req, mountOptions, mode)`; `mode` is
the inner Mount message of the matched access type. -/
def nodePublishVolumeForFileSystem (w : World) (req : NodePublishVolumeRequest)
    (mountOptions : List String) (mode : Option MountCap) (s : NodeState) :
    Option Err × NodeState :=
  let target := req.targetPath
  let source := req.stagingTargetPath
  let mountOptions :=
    match mode with
    | some m =>
      m.mountFlags.foldl
        (fun opts f => if hasOption opts f then opts else opts ++ [f]) mountOptions
    | none => mountOptions
  match mkdirAllOp w target 0 s with
  | (some e, s) =>
    (some (.grpc .internal ("Could not create dir " ++ target ++ ", err: " ++ e.msg)), s)
  | (none, s) =>
    match chmodOp w target 0 s with
    | (some e, s) =>
      (some (.grpc .internal
        ("Could not change mode of dir " ++ target ++ ", err: " ++ e.msg)), s)
    | (none, s) =>
      let fsType := ((mode.map MountCap.fsType).getD "")
      let fsType := if fsType.length = 0 then defaultFsType else fsType
      match mounterMountOp w source target fsType mountOptions s with
      | (some e, s) =>
        match removeOp w target s with
        | (some _, s) =>
          (some (.grpc .internal
            ("Could not remove mount target " ++ target ++ ": " ++ e.msg)), s)
        | (none, s) =>
          (some (.grpc .internal
            ("Could not mount " ++ source ++ " at " ++ target ++ ": " ++ e.msg)), s)
      | (none, s) => (none, s)

/-- The base bind-mount options of NodePublishVolume: `["bind"]` plus
`"ro"` when the request asks for read-only. -/
def publishMountOptions (req : NodePublishVolumeRequest) : List String :=
  let mountOptions := ["bind"]
  if req.readonly then mountOptions ++ ["ro"] else mountOptions

/-- The body of NodePublishVolume between guard acquisition and the
deferred guard release.  The Go switch has no default case, so an unset
access type falls through to the success response; the block case returns
the Unimplemented status error. -/
def nodePublishVolumeOp (w : World) (req : NodePublishVolumeRequest)
    (volCap : VolumeCapability) (volumeID target : String) (s : NodeState) :
    Except Err NodePublishVolumeResponse × NodeState :=
  match isAlreadyMounted w volumeID target s with
  | (some e, s) => (.error (.go e), s)
  | (none, s) =>
    let mountOptions := publishMountOptions req
    match volCap.accessType with
    | .block =>
      (.error (.grpc .unimplemented "does not support block device provisioning"), s)
    | .mount m =>
      match nodePublishVolumeForFileSystem w req mountOptions m s with
      | (some e, s) => (.error e, s)
      | (none, s) => (.ok {}, s)
    | .unset => (.ok {}, s)

/-- `ns.NodePublishVolume(req)`: the guard is keyed by the raw request
volume ID. -/
def NodePublishVolume (w : World) (req : NodePublishVolumeRequest)
    (s : NodeState) : Except Err NodePublishVolumeResponse × NodeState :=
  let volumeID := req.volumeId
  if volumeID.length = 0 then
    (.error (.grpc .invalidArgument "Volume ID not provided"), s)
  else
    let target := req.targetPath
    if target.length = 0 then
      (.error (.grpc .invalidArgument "Target path not provided"), s)
    else
      match req.volumeCapability with
      | none => (.error (.grpc .invalidArgument "Volume capability not provided"), s)
      | some volCap =>
        if ¬ isValidVolumeCapabilities [volCap] then
          (.error (.grpc .invalidArgument "Volume capability not supported"), s)
        else
          match transitionInsert volumeID s with
          | (false, s) =>
            (.error (.grpc .aborted ("an operation on this volume=" ++ volumeID ++
              " is already in progress")), s)
          | (true, s) =>
            let (r, s) := nodePublishVolumeOp w req volCap volumeID target s
            (r, transitionDelete volumeID s)

/-- `os.IsNotExist(err)` on a nillable error value. -/
def osIsNotExist : Option GoErr → Bool
  | some e => e.isNotExist
  | none => false

/-- `ns.unmount(volumeID, target)`: an unmounted or missing target is a
no-op success. -/
def unmount (w : World) (volumeID target : String) (s : NodeState) :
    Option Err × NodeState :=
  let ((notMnt, err), s) := notMountPointOp w target s
  let isNotExistErr := osIsNotExist err
  if (err.isNone && notMnt) || isNotExistErr then (none, s)
  else
    match mounterUnmountOp w target s with
    | (some e, s) =>
      (some (.grpc .internal ("Could not unmount " ++ target ++ ": " ++ e.msg)), s)
    | (none, s) => (none, s)

/-- The body of NodeUnpublishVolume between guard acquisition and the
deferred guard release. -/
def nodeUnpublishVolumeOp (w : World) (volumeID target : String) (s : NodeState) :
    Except Err NodeUnpublishVolumeResponse × NodeState :=
  match unmount w volumeID target s with
  | (some e, s) => (.error e, s)
  | (none, s) => (.ok {}, s)

/-- `ns.NodeUnpublishVolume(req)`: the guard is keyed by the raw request
volume ID. -/
def NodeUnpublishVolume (w : World) (req : NodeUnpublishVolumeRequest)
    (s : NodeState) : Except Err NodeUnpublishVolumeResponse × NodeState :=
  let volumeID := req.volumeId
  if volumeID.length = 0 then
    (.error (.grpc .invalidArgument "Volume ID not provided"), s)
  else
    let target := req.targetPath
    if target.length = 0 then
      (.error (.grpc .invalidArgument "Target path not provided"), s)
    else
      match transitionInsert volumeID s with
      | (false, s) =>
        (.error (.grpc .aborted ("an operation on this volume=" ++ volumeID ++
          " is already in progress")), s)
      | (true, s) =>
        let (r, s) := nodeUnpublishVolumeOp w volumeID target s
        (r, transitionDelete volumeID s)

/-- `ns.NodeGetVolumeStats(req)`. -/
def NodeGetVolumeStats (w : World) (req : NodeGetVolumeStatsRequest)
    (s : NodeState) : Except Err NodeGetVolumeStatsResponse × NodeState :=
  if req.volumeId = "" then
    (.error (.grpc .invalidArgument "NodeGetVolumeStats Volume ID must be provided"), s)
  else if req.volumePath = "" then
    (.error (.grpc .invalidArgument "NodeGetVolumeStats Volume Path must be provided"), s)
  else
    match existsPathOp w req.volumePath s with
    | (.error e, s) =>
      (.error (.grpc .internal ("failed to check if volume path " ++ req.volumePath ++
        " is mounted: " ++ e.msg)), s)
    | (.ok mounted, s) =>
      if ¬ mounted then
        (.error (.grpc .notFound ("volume path " ++ req.volumePath ++ " is not mounted")), s)
      else
        match statisticsOp w req.volumePath s with
        | (.error e, s) =>
          (.error (.grpc .internal ("failed to retrieve capacity statistics for volume path " ++
            req.volumePath ++ ": " ++ e.msg)), s)
        | (.ok stats, s) => (.ok { usage := stats }, s)

/-! ### Concrete fixtures used by witnesses and counterexamples -/

/-- A record that is ready to serve IOs: phase Ready, status RW. -/
def readyVol : JivaVolume :=
  { name := "vol1"
    spec := { iscsiSpec := { targetIP := "10.0.0.1", targetPort := 3260, iqn := "iqn.vol1" }
              mountInfo := { fsType := "", devicePath := "", path := "" } }
    status := { phase := .ready, status := "RW", replicaStatuses := [] } }

/-- A record that is not ready: phase Pending, status RO, no replicas. -/
def pendingVol : JivaVolume :=
  { readyVol with status := { phase := .pending, status := "RO", replicaStatuses := [] } }

/-- An environment in which every external call succeeds. -/
def okWorld : World :=
  { clientSetRes := fun _ => none
    clientGetRes := fun _ _ => .ok readyVol
    clientUpdateRes := fun _ _ => none
    mounterListRes := fun _ => .ok []
    getDeviceNameRes := fun _ _ => .ok ("/dev/sdx", 1)
    unmountRes := fun _ _ => none
    notMountPointRes := fun _ _ => (true, none)
    formatAndMountRes := fun _ _ _ _ _ => none
    mountRes := fun _ _ _ _ _ => none
    existsPathRes := fun _ _ => .ok true
    connectRes := fun _ _ => .ok "/dev/sdx"
    disconnectRes := fun _ _ _ => none
    mkdirAllRes := fun _ _ => none
    chmodRes := fun _ _ => none
    removeAllRes := fun _ _ => none
    removeRes := fun _ _ => none
    dialRes := fun _ _ => none
    statisticsRes := fun _ _ => .ok {} }

/-- An environment whose record store always reports the not-ready record. -/
def neverReadyWorld : World :=
  { okWorld with clientGetRes := fun _ _ => .ok pendingVol }

/-- Retry budget 3, name marker consistent with PV-style names. -/
def cfg3 : Config := { maxRetryCount := 3, pfx := "pvc-" }

/-- Fresh in-process state. -/
def s0 : NodeState := { transition := [], clock := 0, trace := [] }

/-- A supported mount capability with an empty declared filesystem type. -/
def capEmptyFs : VolumeCapability :=
  { accessType := .mount (some { fsType := "", mountFlags := [] }), modeSupported := true }

/-- A staging request with empty declared fsType for volume "vol1". -/
def stageReqEmptyFs : NodeStageVolumeRequest :=
  { volumeId := "vol1", stagingTargetPath := "/stage/vol1"
    volumeCapability := some capEmptyFs }

/-! ### Frame lemmas

`framedBy s sFin P` says a run carried the state from `s` to `sFin` by only
appending effects satisfying `P` and without touching the transition set.
These lemmas isolate which external calls each function can make; the
claim-level theorems about persisted fsTypes, lock keys and guaranteed
release read their facts off them. -/

/-- State evolution bound: transition untouched, only P-effects appended. -/
def framedBy (s sFin : NodeState) (P : Effect → Prop) : Prop :=
  sFin.transition = s.transition ∧ ∃ ext, sFin.trace = s.trace ++ ext ∧ ∀ e ∈ ext, P e

theorem framedBy_rfl (s : NodeState) (P : Effect → Prop) : framedBy s s P :=
  ⟨rfl, [], by simp, by simp⟩

theorem framedBy_consult (s : NodeState) (e : Effect) (P : Effect → Prop) (h : P e) :
    framedBy s (consult e s) P :=
  ⟨rfl, [e], by simp [consult], by simpa⟩

theorem framedBy_trans {s1 s2 s3 : NodeState} {P : Effect → Prop}
    (h1 : framedBy s1 s2 P) (h2 : framedBy s2 s3 P) : framedBy s1 s3 P := by
  obtain ⟨ht, ext, he, hp⟩ := h1
  obtain ⟨ht2, ext2, he2, hp2⟩ := h2
  refine ⟨ht2.trans ht, ext ++ ext2, by simp [he2, he], ?_⟩
  intro e he'
  rcases List.mem_append.1 he' with h | h
  exacts [hp e h, hp2 e h]

theorem framedBy_mono {s1 s2 : NodeState} {P Q : Effect → Prop}
    (h : framedBy s1 s2 P) (hpq : ∀ e, P e → Q e) : framedBy s1 s2 Q := by
  obtain ⟨ht, ext, he, hp⟩ := h
  exact ⟨ht, ext, he, fun e hm => hpq e (hp e hm)⟩

/-- The external calls doesVolumeExist can make. -/
def DveEff (cfg : Config) (volID : String) (e : Effect) : Prop :=
  e = Effect.clientSet ∨ e = Effect.clientGet (stripName cfg.pfx volID)

theorem doesVolumeExist_frame (cfg : Config) (w : World) (volID : String) (s : NodeState) :
    framedBy s (doesVolumeExist cfg w volID s).2 (DveEff cfg volID) := by
  have hP1 : DveEff cfg volID Effect.clientSet := Or.inl rfl
  have hP2 : DveEff cfg volID (Effect.clientGet (stripName cfg.pfx volID)) := Or.inr rfl
  have hboth : framedBy s (consult (Effect.clientGet (stripName cfg.pfx volID))
      (consult Effect.clientSet s)) (DveEff cfg volID) :=
    framedBy_trans (framedBy_consult _ _ _ hP1) (framedBy_consult _ _ _ hP2)
  unfold doesVolumeExist clientSetOp clientGetOp
  rcases h1 : w.clientSetRes s.clock with _ | e
  · simp only [h1]
    rcases h2 : w.clientGetRes (consult Effect.clientSet s).clock
        (stripName cfg.pfx volID) with g | inst
    · simp only [h2]
      split
      · exact hboth
      · exact hboth
    · simp only [h2]
      exact hboth
  · simp only [h1]
    exact framedBy_consult _ _ _ hP1

/-- The external calls the readiness poll can make. -/
def ReadyLoopEff (cfg : Config) (volID : String) (e : Effect) : Prop :=
  (∃ n, e = Effect.sleep n) ∨ DveEff cfg volID e

theorem waitForVolumeToBeReadyLoop_frame (cfg : Config) (w : World) (volID : String) :
    ∀ (fuel delay : Nat) (s : NodeState),
      framedBy s (waitForVolumeToBeReadyLoop cfg w volID fuel delay s).2
        (ReadyLoopEff cfg volID) := by
  intro fuel
  induction fuel with
  | zero =>
    intro delay s
    rw [waitForVolumeToBeReadyLoop]
    have hsleep : framedBy s (sleepOp delay s) (ReadyLoopEff cfg volID) :=
      framedBy_consult _ _ _ (Or.inl ⟨delay, rfl⟩)
    have hdve : framedBy (sleepOp delay s)
        (doesVolumeExist cfg w volID (sleepOp delay s)).2 (ReadyLoopEff cfg volID) :=
      framedBy_mono (doesVolumeExist_frame cfg w volID (sleepOp delay s))
        (fun e h => Or.inr h)
    rcases hres : doesVolumeExist cfg w volID (sleepOp delay s) with ⟨r, s2⟩
    rw [hres] at hdve
    rcases r with e | inst
    · simp only [hres]
      exact framedBy_trans hsleep hdve
    · simp only [hres]
      split
      · exact framedBy_trans hsleep hdve
      · exact framedBy_trans hsleep hdve
  | succ n ih =>
    intro delay s
    rw [waitForVolumeToBeReadyLoop]
    have hsleep : framedBy s (sleepOp delay s) (ReadyLoopEff cfg volID) :=
      framedBy_consult _ _ _ (Or.inl ⟨delay, rfl⟩)
    have hdve : framedBy (sleepOp delay s)
        (doesVolumeExist cfg w volID (sleepOp delay s)).2 (ReadyLoopEff cfg volID) :=
      framedBy_mono (doesVolumeExist_frame cfg w volID (sleepOp delay s))
        (fun e h => Or.inr h)
    rcases hres : doesVolumeExist cfg w volID (sleepOp delay s) with ⟨r, s2⟩
    rw [hres] at hdve
    rcases r with e | inst
    · simp only [hres]
      exact framedBy_trans hsleep hdve
    · simp only [hres]
      split
      · exact framedBy_trans hsleep hdve
      · exact framedBy_trans (framedBy_trans hsleep hdve) (ih 5 s2)

/-- The external calls the reachability poll can make. -/
def ReachLoopEff (portal : String) (e : Effect) : Prop :=
  (∃ n, e = Effect.sleep n) ∨ e = Effect.netDial portal

theorem waitForVolumeToBeReachableLoop_frame (w : World) (portal : String) :
    ∀ (fuel : Nat) (s : NodeState),
      framedBy s (waitForVolumeToBeReachableLoop w portal fuel s).2 (ReachLoopEff portal) := by
  have hPd : ReachLoopEff portal (Effect.netDial portal) := Or.inr rfl
  have hPs : ReachLoopEff portal (Effect.sleep 2) := Or.inl ⟨2, rfl⟩
  intro fuel
  induction fuel with
  | zero =>
    intro s
    rw [waitForVolumeToBeReachableLoop]
    unfold dialOp
    rcases h1 : w.dialRes s.clock portal with _ | e
    · simp only [h1]
      exact framedBy_consult _ _ _ hPd
    · simp only [h1]
      exact framedBy_trans (framedBy_consult _ _ _ hPd) (framedBy_consult _ _ _ hPs)
  | succ n ih =>
    intro s
    rw [waitForVolumeToBeReachableLoop]
    unfold dialOp
    rcases h1 : w.dialRes s.clock portal with _ | e
    · simp only [h1]
      exact framedBy_consult _ _ _ hPd
    · simp only [h1]
      exact framedBy_trans
        (framedBy_trans (framedBy_consult _ _ _ hPd) (framedBy_consult _ _ _ hPs))
        (ih _)

theorem attachDisk_frame (w : World) (inst : JivaVolume) (s : NodeState) :
    framedBy s (attachDisk w inst s).2 (fun e => ∃ c, e = Effect.iscsiConnect c) := by
  unfold attachDisk connectOp
  dsimp only
  split
  next e s2 heq =>
    injection heq with h1 h2
    subst h2
    refine framedBy_consult _ _ _ ?_
    exact ⟨_, rfl⟩
  next d s2 heq =>
    injection heq with h1 h2
    subst h2
    split
    · refine framedBy_consult _ _ _ ?_
      exact ⟨_, rfl⟩
    · refine framedBy_consult _ _ _ ?_
      exact ⟨_, rfl⟩

theorem isAlreadyMounted_frame (w : World) (volID path : String) (s : NodeState) :
    framedBy s (isAlreadyMounted w volID path s).2 (fun e => e = Effect.mounterList) := by
  unfold isAlreadyMounted mounterListOp
  rcases h1 : w.mounterListRes s.clock with e | L
  · simp only [h1]
    refine framedBy_consult _ _ _ ?_
    exact rfl
  · simp only [h1]
    split
    · split
      · refine framedBy_consult _ _ _ ?_
        exact rfl
      · refine framedBy_consult _ _ _ ?_
        exact rfl
    · refine framedBy_consult _ _ _ ?_
      exact rfl

/-- The external calls formatAndMount can make; the mounter receives the
raw request fsType. -/
def FamEff (req : NodeStageVolumeRequest) (e : Effect) : Prop :=
  e = Effect.isLikelyNotMountPoint req.stagingTargetPath ∨
  (∃ p, e = Effect.mkdirAll req.stagingTargetPath p) ∨
  (∃ d o, e = Effect.formatAndMountCall d req.stagingTargetPath (reqRawFsType req) o)

theorem formatAndMount_frame (w : World) (req : NodeStageVolumeRequest)
    (devicePath : String) (s : NodeState) :
    framedBy s (formatAndMount w req devicePath s).2 (FamEff req) := by
  have hP1 : FamEff req (Effect.isLikelyNotMountPoint req.stagingTargetPath) := Or.inl rfl
  have hP2 : ∀ p, FamEff req (Effect.mkdirAll req.stagingTargetPath p) :=
    fun p => Or.inr (Or.inl ⟨p, rfl⟩)
  have hP3 : ∀ d o, FamEff req
      (Effect.formatAndMountCall d req.stagingTargetPath (reqRawFsType req) o) :=
    fun d o => Or.inr (Or.inr ⟨d, o, rfl⟩)
  have hc1 : framedBy s (consult (Effect.isLikelyNotMountPoint req.stagingTargetPath) s)
      (FamEff req) := framedBy_consult _ _ _ hP1
  unfold formatAndMount notMountPointOp mkdirAllOp formatAndMountOp
  dsimp only
  rcases hne : w.notMountPointRes s.clock req.stagingTargetPath with ⟨notMnt, err⟩
  simp only [hne]
  rcases err with _ | e
  · dsimp only
    split
    · exact hc1
    · split
      next heq =>
        injection heq with h1 h2
        subst h2
        exact framedBy_trans hc1 (framedBy_consult _ _ _ (hP3 _ _))
      next heq =>
        injection heq with h1 h2
        subst h2
        exact framedBy_trans hc1 (framedBy_consult _ _ _ (hP3 _ _))
  · dsimp only
    cases hex : e.isNotExist
    · simp only [hex, Bool.not_false, if_pos, Bool.false_eq_true, not_false_eq_true]
      split
      next heq =>
        injection heq with h1 h2
        subst h2
        exact framedBy_trans hc1 (framedBy_consult _ _ _ (hP2 _))
      next heq =>
        injection heq with h1 h2
        subst h2
        have hc2 : framedBy s
            (consult (Effect.mkdirAll req.stagingTargetPath 488)
              (consult (Effect.isLikelyNotMountPoint req.stagingTargetPath) s))
            (FamEff req) :=
          framedBy_trans hc1 (framedBy_consult _ _ _ (hP2 488))
        split
        · exact hc2
        · split
          next heq2 =>
            injection heq2 with h3 h4
            subst h4
            exact framedBy_trans hc2 (framedBy_consult _ _ _ (hP3 _ _))
          next heq2 =>
            injection heq2 with h3 h4
            subst h4
            exact framedBy_trans hc2 (framedBy_consult _ _ _ (hP3 _ _))
    · simp only [hex]
      rw [if_neg (by simp)]
      dsimp only
      split
      · exact hc1
      · split
        next heq =>
          injection heq with h1 h2
          subst h2
          exact framedBy_trans hc1 (framedBy_consult _ _ _ (hP3 _ _))
        next heq =>
          injection heq with h1 h2
          subst h2
          exact framedBy_trans hc1 (framedBy_consult _ _ _ (hP3 _ _))

/-- The external calls `unmount` can make. -/
def UnmountEff (target : String) (e : Effect) : Prop :=
  e = Effect.isLikelyNotMountPoint target ∨ e = Effect.mounterUnmount target

theorem unmount_frame (w : World) (volumeID target : String) (s : NodeState) :
    framedBy s (unmount w volumeID target s).2 (UnmountEff target) := by
  have hP1 : UnmountEff target (Effect.isLikelyNotMountPoint target) := Or.inl rfl
  have hP2 : UnmountEff target (Effect.mounterUnmount target) := Or.inr rfl
  have hc1 : framedBy s (consult (Effect.isLikelyNotMountPoint target) s)
      (UnmountEff target) := framedBy_consult _ _ _ hP1
  unfold unmount notMountPointOp mounterUnmountOp
  dsimp only
  split
  · exact hc1
  · split
    next e s3 heq =>
      injection heq with h1 h2
      subst h2
      exact framedBy_trans hc1 (framedBy_consult _ _ _ hP2)
    next s3 heq =>
      injection heq with h1 h2
      subst h2
      exact framedBy_trans hc1 (framedBy_consult _ _ _ hP2)

/-- The external calls nodePublishVolumeForFileSystem can make. -/
def PubFsEff (req : NodePublishVolumeRequest) (e : Effect) : Prop :=
  (∃ p, e = Effect.mkdirAll req.targetPath p) ∨
  (∃ p, e = Effect.chmod req.targetPath p) ∨
  (∃ f o, e = Effect.mounterMount req.stagingTargetPath req.targetPath f o) ∨
  e = Effect.remove req.targetPath

theorem nodePublishVolumeForFileSystem_frame (w : World)
    (req : NodePublishVolumeRequest) (mountOptions : List String)
    (mode : Option MountCap) (s : NodeState) :
    framedBy s (nodePublishVolumeForFileSystem w req mountOptions mode s).2
      (PubFsEff req) := by
  have hP1 : ∀ p, PubFsEff req (Effect.mkdirAll req.targetPath p) :=
    fun p => Or.inl ⟨p, rfl⟩
  have hP2 : ∀ p, PubFsEff req (Effect.chmod req.targetPath p) :=
    fun p => Or.inr (Or.inl ⟨p, rfl⟩)
  have hP3 : ∀ f o, PubFsEff req
      (Effect.mounterMount req.stagingTargetPath req.targetPath f o) :=
    fun f o => Or.inr (Or.inr (Or.inl ⟨f, o, rfl⟩))
  have hP4 : PubFsEff req (Effect.remove req.targetPath) := Or.inr (Or.inr (Or.inr rfl))
  have hc1 : framedBy s (consult (Effect.mkdirAll req.targetPath 0) s) (PubFsEff req) :=
    framedBy_consult _ _ _ (hP1 0)
  have hc2 : framedBy s (consult (Effect.chmod req.targetPath 0)
      (consult (Effect.mkdirAll req.targetPath 0) s)) (PubFsEff req) :=
    framedBy_trans hc1 (framedBy_consult _ _ _ (hP2 0))
  unfold nodePublishVolumeForFileSystem mkdirAllOp chmodOp mounterMountOp removeOp
  dsimp only
  split
  next e s2 heq =>
    injection heq with h1 h2
    subst h2
    exact hc1
  next s2 heq =>
    injection heq with h1 h2
    subst h2
    split
    next e s3 heq2 =>
      injection heq2 with h3 h4
      subst h4
      exact hc2
    next s3 heq2 =>
      injection heq2 with h3 h4
      subst h4
      split
      next e s4 heq3 =>
        injection heq3 with h5 h6
        subst h6
        split
        next e2 s5 heq4 =>
          injection heq4 with h7 h8
          subst h8
          refine framedBy_trans ?_ (framedBy_consult _ _ _ hP4)
          exact framedBy_trans hc2 (framedBy_consult _ _ _ (hP3 _ _))
        next s5 heq4 =>
          injection heq4 with h7 h8
          subst h8
          refine framedBy_trans ?_ (framedBy_consult _ _ _ hP4)
          exact framedBy_trans hc2 (framedBy_consult _ _ _ (hP3 _ _))
      next s4 heq3 =>
        injection heq3 with h5 h6
        subst h6
        exact framedBy_trans hc2 (framedBy_consult _ _ _ (hP3 _ _))

theorem waitForVolumeToBeReady_frame (cfg : Config) (w : World) (volID : String)
    (s : NodeState) :
    framedBy s (waitForVolumeToBeReady cfg w volID s).2 (ReadyLoopEff cfg volID) := by
  unfold waitForVolumeToBeReady
  exact waitForVolumeToBeReadyLoop_frame cfg w volID cfg.maxRetryCount 0 s

theorem waitForVolumeToBeReachable_frame (cfg : Config) (w : World) (portal : String)
    (s : NodeState) :
    framedBy s (waitForVolumeToBeReachable cfg w portal s).2 (ReachLoopEff portal) := by
  unfold waitForVolumeToBeReachable
  exact waitForVolumeToBeReachableLoop_frame w portal (cfg.maxRetryCount - 1) s

/-- The external calls the staging body can make: the poll and record calls
are keyed by the validated volume ID, every persisted record carries the
validated fsType and staging path in its mountInfo, and the format call is
bounded by `FamEff` (raw request fsType). -/
def StageBodyEff (cfg : Config) (req : NodeStageVolumeRequest)
    (rp : nodeStageRequest) (e : Effect) : Prop :=
  ReadyLoopEff cfg rp.volumeID e ∨
  e = Effect.mounterList ∨
  (∃ a, e = Effect.netDial a) ∨
  (∃ c, e = Effect.iscsiConnect c) ∨
  e = Effect.clientGet rp.volumeID ∨
  (∃ v, e = Effect.clientUpdate v ∧ v.spec.mountInfo.fsType = rp.fsType ∧
    v.spec.mountInfo.path = rp.stagingPath) ∨
  (∃ p, e = Effect.mkdirAll rp.stagingPath p) ∨
  FamEff req e

theorem nodeStageVolumeOp_frame (cfg : Config) (w : World)
    (req : NodeStageVolumeRequest) (rp : nodeStageRequest) (s : NodeState) :
    framedBy s (nodeStageVolumeOp cfg w req rp s).2 (StageBodyEff cfg req rp) := by
  have hPget : StageBodyEff cfg req rp (Effect.clientGet rp.volumeID) :=
    Or.inr (Or.inr (Or.inr (Or.inr (Or.inl rfl))))
  unfold nodeStageVolumeOp clientGetOp clientUpdateOp mkdirAllOp
  dsimp only
  split
  next e s1 heq1 =>
    have h := framedBy_mono (waitForVolumeToBeReady_frame cfg w rp.volumeID s)
      (fun e he => (Or.inl he : StageBodyEff cfg req rp e))
    rw [heq1] at h
    exact h
  next inst s1 heq1 =>
    have hf1 : framedBy s s1 (StageBodyEff cfg req rp) := by
      have h := framedBy_mono (waitForVolumeToBeReady_frame cfg w rp.volumeID s)
        (fun e he => (Or.inl he : StageBodyEff cfg req rp e))
      rwa [heq1] at h
    split
    next e s2 heq2 =>
      have h := framedBy_mono (isAlreadyMounted_frame w rp.volumeID rp.stagingPath s1)
        (fun e he => (Or.inr (Or.inl he) : StageBodyEff cfg req rp e))
      rw [heq2] at h
      exact framedBy_trans hf1 h
    next s2 heq2 =>
      have hf2 : framedBy s s2 (StageBodyEff cfg req rp) := by
        have h := framedBy_mono (isAlreadyMounted_frame w rp.volumeID rp.stagingPath s1)
          (fun e he => (Or.inr (Or.inl he) : StageBodyEff cfg req rp e))
        rw [heq2] at h
        exact framedBy_trans hf1 h
      split
      next e s3 heq3 =>
        have h := framedBy_mono
          (waitForVolumeToBeReachable_frame cfg w (targetPortal inst.spec.iscsiSpec) s2)
          (fun e he => (he.elim (fun hs => Or.inl (Or.inl hs))
            (fun hd => Or.inr (Or.inr (Or.inl ⟨_, hd⟩))) : StageBodyEff cfg req rp e))
        rw [heq3] at h
        exact framedBy_trans hf2 h
      next s3 heq3 =>
        have hf3 : framedBy s s3 (StageBodyEff cfg req rp) := by
          have h := framedBy_mono
            (waitForVolumeToBeReachable_frame cfg w (targetPortal inst.spec.iscsiSpec) s2)
            (fun e he => (he.elim (fun hs => Or.inl (Or.inl hs))
              (fun hd => Or.inr (Or.inr (Or.inl ⟨_, hd⟩))) : StageBodyEff cfg req rp e))
          rw [heq3] at h
          exact framedBy_trans hf2 h
        split
        next e s4 heq4 =>
          have h := framedBy_mono (attachDisk_frame w inst s3)
            (fun e he => (Or.inr (Or.inr (Or.inr (Or.inl he))) :
              StageBodyEff cfg req rp e))
          rw [heq4] at h
          exact framedBy_trans hf3 h
        next devicePath s4 heq4 =>
          have hf4 : framedBy s s4 (StageBodyEff cfg req rp) := by
            have h := framedBy_mono (attachDisk_frame w inst s3)
              (fun e he => (Or.inr (Or.inr (Or.inr (Or.inl he))) :
                StageBodyEff cfg req rp e))
            rw [heq4] at h
            exact framedBy_trans hf3 h
          split
          next e s5 heq5 =>
            injection heq5 with ha hb
            subst hb
            exact framedBy_trans hf4 (framedBy_consult _ _ _ hPget)
          next inst2 s5 heq5 =>
            injection heq5 with ha hb
            subst hb
            have hf5 : framedBy s (consult (Effect.clientGet rp.volumeID) s4)
                (StageBodyEff cfg req rp) :=
              framedBy_trans hf4 (framedBy_consult _ _ _ hPget)
            have hPupd : StageBodyEff cfg req rp
                (Effect.clientUpdate (stagedRecord inst2 rp devicePath)) :=
              Or.inr (Or.inr (Or.inr (Or.inr (Or.inr (Or.inl ⟨_, rfl, rfl, rfl⟩)))))
            have hf6 : framedBy s
                (consult (Effect.clientUpdate (stagedRecord inst2 rp devicePath))
                  (consult (Effect.clientGet rp.volumeID) s4))
                (StageBodyEff cfg req rp) :=
              framedBy_trans hf5 (framedBy_consult _ _ _ hPupd)
            have hPmk : StageBodyEff cfg req rp (Effect.mkdirAll rp.stagingPath 488) :=
              Or.inr (Or.inr (Or.inr (Or.inr (Or.inr (Or.inr (Or.inl ⟨_, rfl⟩))))))
            have hf7 : framedBy s
                (consult (Effect.mkdirAll rp.stagingPath 488)
                  (consult (Effect.clientUpdate (stagedRecord inst2 rp devicePath))
                    (consult (Effect.clientGet rp.volumeID) s4)))
                (StageBodyEff cfg req rp) :=
              framedBy_trans hf6 (framedBy_consult _ _ _ hPmk)
            split
            next e s6 heq6 =>
              injection heq6 with ha2 hb2
              subst hb2
              exact hf6
            next s6 heq6 =>
              injection heq6 with ha2 hb2
              subst hb2
              split
              next e s7 heq7 =>
                injection heq7 with ha3 hb3
                subst hb3
                exact hf7
              next s7 heq7 =>
                injection heq7 with ha3 hb3
                subst hb3
                split
                next e s8 heq8 =>
                  have h := framedBy_mono (formatAndMount_frame w req
                    ((stagedRecord inst2 rp devicePath).spec.mountInfo.devicePath)
                    (consult (Effect.mkdirAll rp.stagingPath 488)
                      (consult (Effect.clientUpdate (stagedRecord inst2 rp devicePath))
                        (consult (Effect.clientGet rp.volumeID) s4))))
                    (fun e he => (Or.inr (Or.inr (Or.inr (Or.inr (Or.inr (Or.inr
                      (Or.inr he)))))) : StageBodyEff cfg req rp e))
                  rw [heq8] at h
                  exact framedBy_trans hf7 h
                next s8 heq8 =>
                  have h := framedBy_mono (formatAndMount_frame w req
                    ((stagedRecord inst2 rp devicePath).spec.mountInfo.devicePath)
                    (consult (Effect.mkdirAll rp.stagingPath 488)
                      (consult (Effect.clientUpdate (stagedRecord inst2 rp devicePath))
                        (consult (Effect.clientGet rp.volumeID) s4))))
                    (fun e he => (Or.inr (Or.inr (Or.inr (Or.inr (Or.inr (Or.inr
                      (Or.inr he)))))) : StageBodyEff cfg req rp e))
                  rw [heq8] at h
                  exact framedBy_trans hf7 h

/-- The external calls the unstage body can make: the record fetch is keyed
by the stripName-normalized volume ID. -/
def UnstageBodyEff (cfg : Config) (volID target : String) (e : Effect) : Prop :=
  e = Effect.getDeviceName target ∨ e = Effect.mounterUnmount target ∨
  DveEff cfg volID e ∨ (∃ i p, e = Effect.iscsiDisconnect i p) ∨
  (∃ p, e = Effect.removeAll p)

theorem nodeUnstageVolumeOp_frame (cfg : Config) (w : World) (volID target : String)
    (s : NodeState) :
    framedBy s (nodeUnstageVolumeOp cfg w volID target s).2
      (UnstageBodyEff cfg volID target) := by
  have hP1 : UnstageBodyEff cfg volID target (Effect.getDeviceName target) := Or.inl rfl
  have hP2 : UnstageBodyEff cfg volID target (Effect.mounterUnmount target) :=
    Or.inr (Or.inl rfl)
  unfold nodeUnstageVolumeOp getDeviceNameOp mounterUnmountOp disconnectOp removeAllOp
  split
  next e s1 heq1 =>
    injection heq1 with ha hb
    subst hb
    exact framedBy_consult _ _ _ hP1
  next dev refCount s1 heq1 =>
    injection heq1 with ha hb
    subst hb
    have hf1 : framedBy s (consult (Effect.getDeviceName target) s)
        (UnstageBodyEff cfg volID target) := framedBy_consult _ _ _ hP1
    split
    · exact hf1
    · split
      next e s2 heq2 =>
        injection heq2 with ha2 hb2
        subst hb2
        exact framedBy_trans hf1 (framedBy_consult _ _ _ hP2)
      next s2 heq2 =>
        injection heq2 with ha2 hb2
        subst hb2
        have hf2 : framedBy s (consult (Effect.mounterUnmount target)
            (consult (Effect.getDeviceName target) s))
            (UnstageBodyEff cfg volID target) :=
          framedBy_trans hf1 (framedBy_consult _ _ _ hP2)
        split
        next e s3 heq3 =>
          have h := framedBy_mono (doesVolumeExist_frame cfg w volID
            (consult (Effect.mounterUnmount target)
              (consult (Effect.getDeviceName target) s)))
            (fun e he => (Or.inr (Or.inr (Or.inl he)) :
              UnstageBodyEff cfg volID target e))
          rw [heq3] at h
          exact framedBy_trans hf2 h
        next inst s3 heq3 =>
          have hf3 : framedBy s s3 (UnstageBodyEff cfg volID target) := by
            have h := framedBy_mono (doesVolumeExist_frame cfg w volID
              (consult (Effect.mounterUnmount target)
                (consult (Effect.getDeviceName target) s)))
              (fun e he => (Or.inr (Or.inr (Or.inl he)) :
                UnstageBodyEff cfg volID target e))
            rw [heq3] at h
            exact framedBy_trans hf2 h
          have hf4 : framedBy s
              (consult (Effect.iscsiDisconnect inst.spec.iscsiSpec.iqn
                [targetPortal inst.spec.iscsiSpec]) s3)
              (UnstageBodyEff cfg volID target) := by
            refine framedBy_trans hf3 (framedBy_consult _ _ _ ?_)
            exact Or.inr (Or.inr (Or.inr (Or.inl ⟨_, _, rfl⟩)))
          split
          next e s4 heq4 =>
            injection heq4 with ha4 hb4
            subst hb4
            exact hf4
          next s4 heq4 =>
            injection heq4 with ha4 hb4
            subst hb4
            split
            next e s5 heq5 =>
              injection heq5 with ha5 hb5
              subst hb5
              refine framedBy_trans hf4 (framedBy_consult _ _ _ ?_)
              exact Or.inr (Or.inr (Or.inr (Or.inr ⟨_, rfl⟩)))
            next s5 heq5 =>
              injection heq5 with ha5 hb5
              subst hb5
              refine framedBy_trans hf4 (framedBy_consult _ _ _ ?_)
              exact Or.inr (Or.inr (Or.inr (Or.inr ⟨_, rfl⟩)))

/-- The external calls the publish body can make. -/
def PublishBodyEff (req : NodePublishVolumeRequest) (e : Effect) : Prop :=
  e = Effect.mounterList ∨ PubFsEff req e

theorem nodePublishVolumeOp_frame (w : World) (req : NodePublishVolumeRequest)
    (volCap : VolumeCapability) (volumeID target : String) (s : NodeState) :
    framedBy s (nodePublishVolumeOp w req volCap volumeID target s).2
      (PublishBodyEff req) := by
  unfold nodePublishVolumeOp
  dsimp only
  split
  next e s1 heq1 =>
    have h := framedBy_mono (isAlreadyMounted_frame w volumeID target s)
      (fun e he => (Or.inl he : PublishBodyEff req e))
    rw [heq1] at h
    exact h
  next s1 heq1 =>
    have hf1 : framedBy s s1 (PublishBodyEff req) := by
      have h := framedBy_mono (isAlreadyMounted_frame w volumeID target s)
        (fun e he => (Or.inl he : PublishBodyEff req e))
      rwa [heq1] at h
    split
    · exact hf1
    next m heqAT =>
      split
      next e s2 heq2 =>
        have h := framedBy_mono
          (nodePublishVolumeForFileSystem_frame w req (publishMountOptions req) m s1)
          (fun e he => (Or.inr he : PublishBodyEff req e))
        rw [heq2] at h
        exact framedBy_trans hf1 h
      next s2 heq2 =>
        have h := framedBy_mono
          (nodePublishVolumeForFileSystem_frame w req (publishMountOptions req) m s1)
          (fun e he => (Or.inr he : PublishBodyEff req e))
        rw [heq2] at h
        exact framedBy_trans hf1 h
    · exact hf1

theorem nodeUnpublishVolumeOp_frame (w : World) (volumeID target : String)
    (s : NodeState) :
    framedBy s (nodeUnpublishVolumeOp w volumeID target s).2 (UnmountEff target) := by
  unfold nodeUnpublishVolumeOp
  split
  next e s1 heq1 =>
    have h := unmount_frame w volumeID target s
    rw [heq1] at h
    exact h
  next s1 heq1 =>
    have h := unmount_frame w volumeID target s
    rw [heq1] at h
    exact h

/-- What a successful validation yields: the normalized volume ID, the
request staging path, and the defaulted fsType. -/
theorem validateStagingReq_ok {cfg : Config} {req : NodeStageVolumeRequest}
    {rp : nodeStageRequest} (h : validateStagingReq cfg req = .ok rp) :
    rp.volumeID = stripName cfg.pfx req.volumeId ∧
    rp.stagingPath = req.stagingTargetPath ∧
    rp.fsType = (if (reqRawFsType req).length = 0 then defaultFsType else reqRawFsType req) := by
  unfold validateStagingReq at h
  dsimp only at h
  by_cases h0 : req.volumeId.length = 0
  · rw [if_pos h0] at h
    exact Except.noConfusion h
  · rw [if_neg h0] at h
    rcases heqCap : req.volumeCapability with _ | volCap <;> rw [heqCap] at h
    · exact Except.noConfusion h
    · dsimp only at h
      by_cases h1 : isValidVolumeCapabilities [volCap] = true
      · rw [if_neg (by simp [h1])] at h
        rcases heqM : volCap.getMount with _ | mount <;> rw [heqM] at h
        · exact Except.noConfusion h
        · dsimp only at h
          by_cases h2 : req.stagingTargetPath.length = 0
          · rw [if_pos h2] at h
            exact Except.noConfusion h
          · rw [if_neg h2] at h
            injection h with h3
            subst h3
            refine ⟨rfl, rfl, ?_⟩
            simp [reqRawFsType, heqCap, heqM]
      · rw [if_pos (by simp [h1])] at h
        exact Except.noConfusion h

/-- An empty staging path never passes validation, and the error is always
InvalidArgument. -/
theorem validateStagingReq_stagingEmpty {cfg : Config} {req : NodeStageVolumeRequest}
    (h : req.stagingTargetPath.length = 0) :
    ∃ msg, validateStagingReq cfg req = .error (.grpc .invalidArgument msg) := by
  unfold validateStagingReq
  dsimp only
  by_cases h0 : req.volumeId.length = 0
  · rw [if_pos h0]
    exact ⟨_, rfl⟩
  · rw [if_neg h0]
    rcases heqCap : req.volumeCapability with _ | volCap
    · exact ⟨_, rfl⟩
    · dsimp only
      by_cases h1 : isValidVolumeCapabilities [volCap] = true
      · rw [if_neg (by simp [h1])]
        rcases heqM : volCap.getMount with _ | mount
        · exact ⟨_, rfl⟩
        · dsimp only
          rw [if_pos h]
          exact ⟨_, rfl⟩
      · rw [if_pos (by simp [h1])]
        exact ⟨_, rfl⟩

/-- Every validation failure of validateStagingReq — empty volume ID,
missing capability, unsupported capability, nil mount, empty staging
path — carries the InvalidArgument code. -/
theorem validateStagingReq_error_invalidArgument {cfg : Config}
    {req : NodeStageVolumeRequest} {e : Err}
    (h : validateStagingReq cfg req = .error e) :
    ∃ msg, e = .grpc .invalidArgument msg := by
  unfold validateStagingReq at h
  dsimp only at h
  by_cases h0 : req.volumeId.length = 0
  · rw [if_pos h0] at h
    injection h with h1
    exact ⟨_, h1.symm⟩
  · rw [if_neg h0] at h
    rcases heqCap : req.volumeCapability with _ | volCap <;> rw [heqCap] at h
    · injection h with h1
      exact ⟨_, h1.symm⟩
    · dsimp only at h
      by_cases h1 : isValidVolumeCapabilities [volCap] = true
      · rw [if_neg (by simp [h1])] at h
        rcases heqM : volCap.getMount with _ | mount <;> rw [heqM] at h
        · injection h with h2
          exact ⟨_, h2.symm⟩
        · dsimp only at h
          by_cases h2 : req.stagingTargetPath.length = 0
          · rw [if_pos h2] at h
            injection h with h3
            exact ⟨_, h3.symm⟩
          · rw [if_neg h2] at h
            exact Except.noConfusion h
      · rw [if_pos (by simp [h1])] at h
        injection h with h2
        exact ⟨_, h2.symm⟩

/-- Effects a NodeStageVolume call can emit: guard operations keyed by the
normalized ID, and body effects of the validated parameters. -/
def StageRpcEff (cfg : Config) (req : NodeStageVolumeRequest) (e : Effect) : Prop :=
  (∃ ok, e = Effect.guardInsert (stripName cfg.pfx req.volumeId) ok) ∨
  e = Effect.guardDelete (stripName cfg.pfx req.volumeId) ∨
  (∃ rp, validateStagingReq cfg req = Except.ok rp ∧ StageBodyEff cfg req rp e)

theorem NodeStageVolume_run (cfg : Config) (w : World) (req : NodeStageVolumeRequest)
    (s : NodeState) :
    ((NodeStageVolume cfg w req s).2.transition = s.transition ∨
     (NodeStageVolume cfg w req s).2.transition =
       s.transition.filter (· ≠ stripName cfg.pfx req.volumeId)) ∧
    ∃ ext, (NodeStageVolume cfg w req s).2.trace = s.trace ++ ext ∧
      ∀ e ∈ ext, StageRpcEff cfg req e := by
  unfold NodeStageVolume
  split
  next e heqv => exact ⟨Or.inl rfl, [], by simp, by simp⟩
  next rp heqv =>
    obtain ⟨hvid, hsp, hfs⟩ := validateStagingReq_ok heqv
    split
    next s1 heqI =>
      unfold transitionInsert at heqI
      split at heqI
      next hmem =>
        injection heqI with h1 h2
        subst h2
        refine ⟨Or.inl (by simp [consult]), [Effect.guardInsert rp.volumeID false],
          by simp [consult], ?_⟩
        intro e he
        simp only [List.mem_singleton] at he
        subst he
        exact Or.inl ⟨false, by rw [hvid]⟩
      next hmem => simp at heqI
    next s1 heqI =>
      unfold transitionInsert at heqI
      split at heqI
      next hmem => simp at heqI
      next hmem =>
        injection heqI with h1 h2
        subst h2
        split
        next r sb heqB =>
          obtain ⟨htr, ext, htrace, hP⟩ := nodeStageVolumeOp_frame cfg w req rp _
          rw [heqB] at htr htrace
          simp only [consult] at htr htrace
          refine ⟨Or.inr ?_, Effect.guardInsert rp.volumeID true ::
            (ext ++ [Effect.guardDelete rp.volumeID]), ?_, ?_⟩
          · simp only [transitionDelete, consult]
            rw [htr, ← hvid]
            simp [List.filter_cons]
          · simp only [transitionDelete, consult]
            rw [htrace]
            simp
          · intro e he
            rcases List.mem_cons.1 he with he1 | he2
            · subst he1
              exact Or.inl ⟨true, by rw [hvid]⟩
            · rcases List.mem_append.1 he2 with he3 | he4
              · exact Or.inr (Or.inr ⟨rp, heqv, hP e he3⟩)
              · simp only [List.mem_singleton] at he4
                subst he4
                exact Or.inr (Or.inl (by rw [hvid]))

/-- Effects a NodeUnstageVolume call can emit: guard operations keyed by
the raw request volume ID. -/
def UnstageRpcEff (cfg : Config) (req : NodeUnstageVolumeRequest) (e : Effect) : Prop :=
  (∃ ok, e = Effect.guardInsert req.volumeId ok) ∨
  e = Effect.guardDelete req.volumeId ∨
  UnstageBodyEff cfg req.volumeId req.stagingTargetPath e

theorem NodeUnstageVolume_run (cfg : Config) (w : World)
    (req : NodeUnstageVolumeRequest) (s : NodeState) :
    ((NodeUnstageVolume cfg w req s).2.transition = s.transition ∨
     (NodeUnstageVolume cfg w req s).2.transition =
       s.transition.filter (· ≠ req.volumeId)) ∧
    ∃ ext, (NodeUnstageVolume cfg w req s).2.trace = s.trace ++ ext ∧
      ∀ e ∈ ext, UnstageRpcEff cfg req e := by
  unfold NodeUnstageVolume
  dsimp only
  split
  · exact ⟨Or.inl rfl, [], by simp, by simp⟩
  · split
    · exact ⟨Or.inl rfl, [], by simp, by simp⟩
    · split
      next s1 heqI =>
        unfold transitionInsert at heqI
        split at heqI
        next hmem =>
          injection heqI with h1 h2
          subst h2
          refine ⟨Or.inl (by simp [consult]), [Effect.guardInsert req.volumeId false],
            by simp [consult], ?_⟩
          intro e he
          simp only [List.mem_singleton] at he
          subst he
          exact Or.inl ⟨false, rfl⟩
        next hmem => simp at heqI
      next s1 heqI =>
        unfold transitionInsert at heqI
        split at heqI
        next hmem => simp at heqI
        next hmem =>
          injection heqI with h1 h2
          subst h2
          dsimp only
          rcases heqB : nodeUnstageVolumeOp cfg w req.volumeId req.stagingTargetPath
              { transition := req.volumeId :: s.transition
                clock := (consult (Effect.guardInsert req.volumeId true) s).clock
                trace := (consult (Effect.guardInsert req.volumeId true) s).trace }
            with ⟨r, sb⟩
          obtain ⟨htr, ext, htrace, hP⟩ :=
            nodeUnstageVolumeOp_frame cfg w req.volumeId req.stagingTargetPath
              { transition := req.volumeId :: s.transition
                clock := (consult (Effect.guardInsert req.volumeId true) s).clock
                trace := (consult (Effect.guardInsert req.volumeId true) s).trace }
          rw [heqB] at htr htrace
          simp only [consult] at htr htrace
          refine ⟨Or.inr ?_, Effect.guardInsert req.volumeId true ::
            (ext ++ [Effect.guardDelete req.volumeId]), ?_, ?_⟩
          · simp only [transitionDelete, consult]
            rw [htr]
            simp [List.filter_cons]
          · simp only [transitionDelete, consult]
            rw [htrace]
            simp
          · intro e he
            rcases List.mem_cons.1 he with he1 | he2
            · subst he1
              exact Or.inl ⟨true, rfl⟩
            · rcases List.mem_append.1 he2 with he3 | he4
              · exact Or.inr (Or.inr (hP e he3))
              · simp only [List.mem_singleton] at he4
                subst he4
                exact Or.inr (Or.inl rfl)

/-- Effects a NodePublishVolume call can emit: guard operations keyed by
the raw request volume ID. -/
def PublishRpcEff (req : NodePublishVolumeRequest) (e : Effect) : Prop :=
  (∃ ok, e = Effect.guardInsert req.volumeId ok) ∨
  e = Effect.guardDelete req.volumeId ∨
  PublishBodyEff req e

theorem NodePublishVolume_run (w : World) (req : NodePublishVolumeRequest)
    (s : NodeState) :
    ((NodePublishVolume w req s).2.transition = s.transition ∨
     (NodePublishVolume w req s).2.transition =
       s.transition.filter (· ≠ req.volumeId)) ∧
    ∃ ext, (NodePublishVolume w req s).2.trace = s.trace ++ ext ∧
      ∀ e ∈ ext, PublishRpcEff req e := by
  unfold NodePublishVolume
  dsimp only
  split
  · exact ⟨Or.inl rfl, [], by simp, by simp⟩
  · split
    · exact ⟨Or.inl rfl, [], by simp, by simp⟩
    · split
      · exact ⟨Or.inl rfl, [], by simp, by simp⟩
      next volCap heqCap =>
        split
        · exact ⟨Or.inl rfl, [], by simp, by simp⟩
        · split
          next s1 heqI =>
            unfold transitionInsert at heqI
            split at heqI
            next hmem =>
              injection heqI with h1 h2
              subst h2
              refine ⟨Or.inl (by simp [consult]),
                [Effect.guardInsert req.volumeId false], by simp [consult], ?_⟩
              intro e he
              simp only [List.mem_singleton] at he
              subst he
              exact Or.inl ⟨false, rfl⟩
            next hmem => simp at heqI
          next s1 heqI =>
            unfold transitionInsert at heqI
            split at heqI
            next hmem => simp at heqI
            next hmem =>
              injection heqI with h1 h2
              subst h2
              dsimp only
              rcases heqB : nodePublishVolumeOp w req volCap req.volumeId req.targetPath
                  { transition := req.volumeId :: s.transition
                    clock := (consult (Effect.guardInsert req.volumeId true) s).clock
                    trace := (consult (Effect.guardInsert req.volumeId true) s).trace }
                with ⟨r, sb⟩
              obtain ⟨htr, ext, htrace, hP⟩ :=
                nodePublishVolumeOp_frame w req volCap req.volumeId req.targetPath
                  { transition := req.volumeId :: s.transition
                    clock := (consult (Effect.guardInsert req.volumeId true) s).clock
                    trace := (consult (Effect.guardInsert req.volumeId true) s).trace }
              rw [heqB] at htr htrace
              simp only [consult] at htr htrace
              refine ⟨Or.inr ?_, Effect.guardInsert req.volumeId true ::
                (ext ++ [Effect.guardDelete req.volumeId]), ?_, ?_⟩
              · simp only [transitionDelete, consult]
                rw [htr]
                simp [List.filter_cons]
              · simp only [transitionDelete, consult]
                rw [htrace]
                simp
              · intro e he
                rcases List.mem_cons.1 he with he1 | he2
                · subst he1
                  exact Or.inl ⟨true, rfl⟩
                · rcases List.mem_append.1 he2 with he3 | he4
                  · exact Or.inr (Or.inr (hP e he3))
                  · simp only [List.mem_singleton] at he4
                    subst he4
                    exact Or.inr (Or.inl rfl)

/-- Effects a NodeUnpublishVolume call can emit: guard operations keyed by
the raw request volume ID. -/
def UnpublishRpcEff (req : NodeUnpublishVolumeRequest) (e : Effect) : Prop :=
  (∃ ok, e = Effect.guardInsert req.volumeId ok) ∨
  e = Effect.guardDelete req.volumeId ∨
  UnmountEff req.targetPath e

theorem NodeUnpublishVolume_run (w : World) (req : NodeUnpublishVolumeRequest)
    (s : NodeState) :
    ((NodeUnpublishVolume w req s).2.transition = s.transition ∨
     (NodeUnpublishVolume w req s).2.transition =
       s.transition.filter (· ≠ req.volumeId)) ∧
    ∃ ext, (NodeUnpublishVolume w req s).2.trace = s.trace ++ ext ∧
      ∀ e ∈ ext, UnpublishRpcEff req e := by
  unfold NodeUnpublishVolume
  dsimp only
  split
  · exact ⟨Or.inl rfl, [], by simp, by simp⟩
  · split
    · exact ⟨Or.inl rfl, [], by simp, by simp⟩
    · split
      next s1 heqI =>
        unfold transitionInsert at heqI
        split at heqI
        next hmem =>
          injection heqI with h1 h2
          subst h2
          refine ⟨Or.inl (by simp [consult]),
            [Effect.guardInsert req.volumeId false], by simp [consult], ?_⟩
          intro e he
          simp only [List.mem_singleton] at he
          subst he
          exact Or.inl ⟨false, rfl⟩
        next hmem => simp at heqI
      next s1 heqI =>
        unfold transitionInsert at heqI
        split at heqI
        next hmem => simp at heqI
        next hmem =>
          injection heqI with h1 h2
          subst h2
          dsimp only
          rcases heqB : nodeUnpublishVolumeOp w req.volumeId req.targetPath
              { transition := req.volumeId :: s.transition
                clock := (consult (Effect.guardInsert req.volumeId true) s).clock
                trace := (consult (Effect.guardInsert req.volumeId true) s).trace }
            with ⟨r, sb⟩
          obtain ⟨htr, ext, htrace, hP⟩ :=
            nodeUnpublishVolumeOp_frame w req.volumeId req.targetPath
              { transition := req.volumeId :: s.transition
                clock := (consult (Effect.guardInsert req.volumeId true) s).clock
                trace := (consult (Effect.guardInsert req.volumeId true) s).trace }
          rw [heqB] at htr htrace
          simp only [consult] at htr htrace
          refine ⟨Or.inr ?_, Effect.guardInsert req.volumeId true ::
            (ext ++ [Effect.guardDelete req.volumeId]), ?_, ?_⟩
          · simp only [transitionDelete, consult]
            rw [htr]
            simp [List.filter_cons]
          · simp only [transitionDelete, consult]
            rw [htrace]
            simp
          · intro e he
            rcases List.mem_cons.1 he with he1 | he2
            · subst he1
              exact Or.inl ⟨true, rfl⟩
            · rcases List.mem_append.1 he2 with he3 | he4
              · exact Or.inr (Or.inr (hP e he3))
              · simp only [List.mem_singleton] at he4
                subst he4
                exact Or.inr (Or.inl rfl)

/-! ### Exact behaviour of the readiness poll -/

/-- One status check of the readiness poll: the sleep, the client refresh
and the record fetch. -/
def checkPattern (volID : String) (delay : Nat) : List Effect :=
  [Effect.sleep delay, Effect.clientSet, Effect.clientGet volID]

/-- Number of record status checks (clientGet calls) in a trace. -/
def countChecks (tr : List Effect) : Nat :=
  (tr.filter fun e => match e with | Effect.clientGet _ => true | _ => false).length

theorem countChecks_append (a b : List Effect) :
    countChecks (a ++ b) = countChecks a + countChecks b := by
  simp [countChecks, List.filter_append]

theorem countChecks_checkPattern (volID : String) (delay : Nat) :
    countChecks (checkPattern volID delay) = 1 := rfl

theorem countChecks_replicate (volID : String) (n : Nat) :
    countChecks ((List.replicate n (checkPattern volID 5)).flatten) = n := by
  induction n with
  | zero => rfl
  | succ n ih =>
    simp only [List.replicate_succ, List.flatten_cons, countChecks_append, ih,
      countChecks_checkPattern]
    omega

/-- Against a store that never reports Ready/RW, the poll loop performs one
check per unit of fuel plus the initial one, each a sleep/set/get triple
(first with the given delay, later ones with delay 5), and ends with the
max-retry error. -/
theorem waitLoop_neverReady {cfg : Config} {w : World} {volID : String}
    (hset : ∀ k, w.clientSetRes k = none)
    (hget : ∀ k, ∃ v, w.clientGetRes k (stripName cfg.pfx volID) = .ok v ∧
        ¬(v.status.phase = JivaVolumePhase.ready ∧ v.status.status = "RW")) :
    ∀ (fuel delay : Nat) (s : NodeState),
      waitForVolumeToBeReadyLoop cfg w volID fuel delay s =
        (.error (.go { msg := "Max retry count exceeded, volume is not ready" }),
         { transition := s.transition, clock := s.clock + 3 * (fuel + 1),
           trace := s.trace ++ checkPattern (stripName cfg.pfx volID) delay ++
             (List.replicate fuel (checkPattern (stripName cfg.pfx volID) 5)).flatten }) := by
  intro fuel
  induction fuel with
  | zero =>
    intro delay s
    rw [waitForVolumeToBeReadyLoop]
    obtain ⟨v, hv, hnr⟩ := hget (s.clock + 1 + 1)
    unfold doesVolumeExist clientSetOp clientGetOp sleepOp
    simp only [consult, hset, hv]
    rw [if_neg hnr]
    simp [checkPattern]
  | succ n ih =>
    intro delay s
    rw [waitForVolumeToBeReadyLoop]
    obtain ⟨v, hv, hnr⟩ := hget (s.clock + 1 + 1)
    unfold doesVolumeExist clientSetOp clientGetOp sleepOp
    simp only [consult, hset, hv]
    rw [if_neg hnr]
    rw [ih]
    simp [checkPattern, List.replicate_succ]
    omega

/-! ### Claim theorems -/

/-- Claim C2: for every Stage request against a volume record that never
reaches phase Ready with status RW, with retry budget N = MaxRetryCount,
the readiness poll performs exactly N+1 status checks — the first
immediate (sleep 0) and the N subsequent ones after a fixed delay
(sleep 5) — and then the RPC returns FailedPrecondition. -/
theorem C2_retry_bound (cfg : Config) (w : World) (req : NodeStageVolumeRequest)
    (rp : nodeStageRequest) (s : NodeState)
    (hval : validateStagingReq cfg req = .ok rp)
    (hfree : rp.volumeID ∉ s.transition)
    (hset : ∀ k, w.clientSetRes k = none)
    (hget : ∀ k, ∃ v, w.clientGetRes k (stripName cfg.pfx rp.volumeID) = .ok v ∧
        ¬(v.status.phase = JivaVolumePhase.ready ∧ v.status.status = "RW")) :
    ∃ sFin,
      NodeStageVolume cfg w req s =
        (.error (.grpc .failedPrecondition "Max retry count exceeded, volume is not ready"),
          sFin) ∧
      sFin.trace = s.trace ++ [Effect.guardInsert rp.volumeID true] ++
        (checkPattern (stripName cfg.pfx rp.volumeID) 0 ++
          (List.replicate cfg.maxRetryCount
            (checkPattern (stripName cfg.pfx rp.volumeID) 5)).flatten) ++
        [Effect.guardDelete rp.volumeID] ∧
      countChecks (checkPattern (stripName cfg.pfx rp.volumeID) 0 ++
        (List.replicate cfg.maxRetryCount
          (checkPattern (stripName cfg.pfx rp.volumeID) 5)).flatten) =
        cfg.maxRetryCount + 1 ∧
      sFin.transition = s.transition := by
  unfold NodeStageVolume
  split
  next e heq =>
    rw [hval] at heq
    exact Except.noConfusion heq
  next rp2 heq =>
    rw [hval] at heq
    injection heq with h
    subst h
    split
    next s1 heqI =>
      unfold transitionInsert at heqI
      rw [if_neg hfree] at heqI
      simp at heqI
    next s1 heqI =>
      unfold transitionInsert at heqI
      rw [if_neg hfree] at heqI
      injection heqI with h1 h2
      subst h2
      unfold nodeStageVolumeOp waitForVolumeToBeReady
      rw [waitLoop_neverReady hset hget]
      refine ⟨_, rfl, ?_, ?_, ?_⟩
      · simp [transitionDelete, consult]
      · rw [countChecks_append, countChecks_checkPattern, countChecks_replicate]
        omega
      · simp only [transitionDelete, consult]
        have h0 : List.filter (fun x => decide (x ≠ rp.volumeID))
            (rp.volumeID :: s.transition) =
            List.filter (fun x => decide (x ≠ rp.volumeID)) s.transition := by simp
        rw [h0]
        exact List.filter_eq_self.mpr (fun a ha =>
          decide_eq_true (fun hEq => hfree (hEq ▸ ha)))

/-- Witness for C2 at retry budget 3 and a permanently pending record. -/
theorem C2_retry_bound_witness :
    (NodeStageVolume cfg3 neverReadyWorld stageReqEmptyFs s0).1 =
      .error (.grpc .failedPrecondition "Max retry count exceeded, volume is not ready") := by
  obtain ⟨sFin, heq, -, -, -⟩ := C2_retry_bound cfg3 neverReadyWorld stageReqEmptyFs
    ⟨"/stage/vol1", "ext4", "vol1"⟩ s0 (by rfl) (by decide) (fun k => rfl)
    (fun k => ⟨pendingVol, rfl, by decide⟩)
  rw [heq]

/-- Claim C8: a Stage call with an empty staging path returns
InvalidArgument and returns the state exactly as it was, and more
generally every validation failure (empty volume ID, missing or
unsupported capability, nil mount, empty staging path) is an
InvalidArgument error that returns the state exactly as it was: the
Transition Guard is not acquired and no external collaborator is
contacted (no effect is recorded, the transition set and clock are
unchanged). -/
theorem C8_validation_no_side_effects (cfg : Config) (w : World)
    (req : NodeStageVolumeRequest) (s : NodeState) :
    (req.stagingTargetPath.length = 0 →
      ∃ msg, NodeStageVolume cfg w req s = (.error (.grpc .invalidArgument msg), s)) ∧
    (∀ e, validateStagingReq cfg req = .error e →
      NodeStageVolume cfg w req s = (.error e, s) ∧
      ∃ msg, e = .grpc .invalidArgument msg) := by
  constructor
  · intro h
    obtain ⟨msg, hv⟩ := @validateStagingReq_stagingEmpty cfg req h
    refine ⟨msg, ?_⟩
    unfold NodeStageVolume
    rw [hv]
  · intro e he
    refine ⟨?_, validateStagingReq_error_invalidArgument he⟩
    unfold NodeStageVolume
    rw [he]

/-- Witness for C8: an empty staging path, an empty volume ID, and a
missing volume capability on otherwise well-formed requests, each
rejected with InvalidArgument and an unchanged state. -/
theorem C8_validation_no_side_effects_witness :
    (∃ msg, NodeStageVolume cfg3 okWorld
      { volumeId := "vol1", stagingTargetPath := "", volumeCapability := some capEmptyFs }
      s0 = (.error (.grpc .invalidArgument msg), s0)) ∧
    NodeStageVolume cfg3 okWorld
      { volumeId := "", stagingTargetPath := "/stage/vol1", volumeCapability := some capEmptyFs }
      s0 = (.error (.grpc .invalidArgument "Volume ID not provided"), s0) ∧
    NodeStageVolume cfg3 okWorld
      { volumeId := "vol1", stagingTargetPath := "/stage/vol1", volumeCapability := none }
      s0 = (.error (.grpc .invalidArgument "Volume capability not provided"), s0) := by
  refine ⟨?_, ?_, ?_⟩
  · exact (C8_validation_no_side_effects cfg3 okWorld
      { volumeId := "vol1", stagingTargetPath := "", volumeCapability := some capEmptyFs }
      s0).1 (by decide)
  · exact ((C8_validation_no_side_effects cfg3 okWorld
      { volumeId := "", stagingTargetPath := "/stage/vol1", volumeCapability := some capEmptyFs }
      s0).2 (.grpc .invalidArgument "Volume ID not provided") (by rfl)).1
  · exact ((C8_validation_no_side_effects cfg3 okWorld
      { volumeId := "vol1", stagingTargetPath := "/stage/vol1", volumeCapability := none }
      s0).2 (.grpc .invalidArgument "Volume capability not provided") (by rfl)).1

/-- Claim C10: NodeGetVolumeStats returns InvalidArgument when the volume
ID or the volume path is empty; otherwise it consults the mounted check:
a check failure maps to Internal, an unmounted path to NotFound, a usage
query failure to Internal, and otherwise the usage statistics are
returned. -/
theorem C10_volume_stats (w : World) (req : NodeGetVolumeStatsRequest) (s : NodeState) :
    (req.volumeId = "" →
      NodeGetVolumeStats w req s =
        (.error (.grpc .invalidArgument "NodeGetVolumeStats Volume ID must be provided"), s)) ∧
    (req.volumeId ≠ "" → req.volumePath = "" →
      NodeGetVolumeStats w req s =
        (.error (.grpc .invalidArgument "NodeGetVolumeStats Volume Path must be provided"), s)) ∧
    (req.volumeId ≠ "" → req.volumePath ≠ "" →
      (∀ g, w.existsPathRes s.clock req.volumePath = .error g →
        (NodeGetVolumeStats w req s).1 = .error (.grpc .internal
          ("failed to check if volume path " ++ req.volumePath ++ " is mounted: " ++ g.msg))) ∧
      (w.existsPathRes s.clock req.volumePath = .ok false →
        (NodeGetVolumeStats w req s).1 = .error (.grpc .notFound
          ("volume path " ++ req.volumePath ++ " is not mounted"))) ∧
      (w.existsPathRes s.clock req.volumePath = .ok true →
        (∀ g, w.statisticsRes (s.clock + 1) req.volumePath = .error g →
          (NodeGetVolumeStats w req s).1 = .error (.grpc .internal
            ("failed to retrieve capacity statistics for volume path " ++ req.volumePath ++
              ": " ++ g.msg))) ∧
        (∀ stats, w.statisticsRes (s.clock + 1) req.volumePath = .ok stats →
          (NodeGetVolumeStats w req s).1 = .ok { usage := stats }))) := by
  refine ⟨?_, ?_, ?_⟩
  · intro h
    unfold NodeGetVolumeStats
    rw [if_pos h]
  · intro h1 h2
    unfold NodeGetVolumeStats
    rw [if_neg h1, if_pos h2]
  · intro h1 h2
    unfold NodeGetVolumeStats existsPathOp statisticsOp
    rw [if_neg h1, if_neg h2]
    simp only [consult]
    refine ⟨?_, ?_, ?_⟩
    · intro g hg
      simp only [hg]
    · intro hg
      simp only [hg]
      rfl
    · intro hg
      simp only [hg]
      refine ⟨?_, ?_⟩
      · intro g hsg
        simp only [hsg]
        rfl
      · intro stats hsg
        simp only [hsg]
        rfl

/-- Witness for C10: success with statistics and the empty-ID rejection. -/
theorem C10_volume_stats_witness :
    (NodeGetVolumeStats okWorld { volumeId := "vol1", volumePath := "/mnt/v" } s0).1 =
      .ok { usage := {} } ∧
    NodeGetVolumeStats okWorld { volumeId := "", volumePath := "/mnt/v" } s0 =
      (.error (.grpc .invalidArgument "NodeGetVolumeStats Volume ID must be provided"), s0) := by
  constructor
  · exact (((C10_volume_stats okWorld
      { volumeId := "vol1", volumePath := "/mnt/v" } s0).2.2
        (by decide) (by decide)).2.2 rfl).2 {} rfl
  · exact (C10_volume_stats okWorld
      { volumeId := "", volumePath := "/mnt/v" } s0).1 rfl

/-- An environment whose mount table holds two paths containing "v1". -/
def twoMountWorld : World :=
  { okWorld with mounterListRes :=
      fun _ => Except.ok [({ path := "/a/v1" } : MountPoint), { path := "/b/v1" }] }

/-- Claim C6: given the set of OS mount paths containing the volume ID as
a substring, the Mount State Inspector accepts exactly when that set has
at most one element or the request path is among them. -/
theorem C6_multi_mount (w : World) (volID path : String) (s : NodeState)
    (L : List MountPoint) (hL : w.mounterListRes s.clock = .ok L) :
    ((isAlreadyMounted w volID path s).1 = none ↔
      (((L.filter (fun m => strContains m.path volID)).map MountPoint.path).dedup.length ≤ 1 ∨
        path ∈ ((L.filter (fun m => strContains m.path volID)).map MountPoint.path).dedup)) := by
  unfold isAlreadyMounted mounterListOp
  simp only [hL]
  split
  next hlen =>
    split
    next hmem =>
      simp only [true_iff]
      exact Or.inr hmem
    next hmem =>
      constructor
      · intro h
        exact Option.noConfusion h
      · intro h
        rcases h with h | h
        · omega
        · exact absurd h hmem
  next hlen =>
    simp only [true_iff]
    exact Or.inl (by omega)

/-- Witness for C6: two matching mounts accept the request path among them
and reject a path outside them. -/
theorem C6_multi_mount_witness :
    (isAlreadyMounted twoMountWorld "v1" "/a/v1" s0).1 = none ∧
    (isAlreadyMounted twoMountWorld "v1" "/c" s0).1 ≠ none := by
  constructor
  · exact (C6_multi_mount twoMountWorld "v1" "/a/v1" s0
      [{ path := "/a/v1" }, { path := "/b/v1" }] rfl).2 (by decide)
  · intro h
    have h2 := (C6_multi_mount twoMountWorld "v1" "/c" s0
      [{ path := "/a/v1" }, { path := "/b/v1" }] rfl).1 h
    revert h2
    decide

/-- The full trace of an Unstage call that finds reference count zero. -/
def unstageNoopTrace (id target : String) : List Effect :=
  [Effect.guardInsert id true, Effect.getDeviceName target, Effect.guardDelete id]

/-- The full trace of an Unpublish call on a target that is not mounted or
does not exist. -/
def unpublishNoopTrace (id target : String) : List Effect :=
  [Effect.guardInsert id true, Effect.isLikelyNotMountPoint target, Effect.guardDelete id]

theorem NodeUnstageVolume_noop {cfg : Config} {w : World}
    {req : NodeUnstageVolumeRequest} {s : NodeState} {dev : String}
    (h1 : ¬ req.volumeId = "") (h2 : ¬ req.stagingTargetPath.length = 0)
    (hfree : req.volumeId ∉ s.transition)
    (hdev : w.getDeviceNameRes (s.clock + 1) req.stagingTargetPath = .ok (dev, 0)) :
    (NodeUnstageVolume cfg w req s).1 = .ok {} ∧
    (NodeUnstageVolume cfg w req s).2.transition = s.transition ∧
    (NodeUnstageVolume cfg w req s).2.clock = s.clock + 3 ∧
    (NodeUnstageVolume cfg w req s).2.trace =
      s.trace ++ unstageNoopTrace req.volumeId req.stagingTargetPath := by
  have hfil : List.filter (fun x => decide (x ≠ req.volumeId))
      (req.volumeId :: s.transition) = s.transition := by
    have h0 : List.filter (fun x => decide (x ≠ req.volumeId))
        (req.volumeId :: s.transition) =
        List.filter (fun x => decide (x ≠ req.volumeId)) s.transition := by simp
    rw [h0]
    exact List.filter_eq_self.mpr (fun a ha =>
      decide_eq_true (fun hEq => hfree (hEq ▸ ha)))
  unfold NodeUnstageVolume
  dsimp only
  rw [if_neg h1, if_neg h2]
  unfold transitionInsert
  rw [if_neg hfree]
  dsimp only
  unfold nodeUnstageVolumeOp getDeviceNameOp
  simp only [consult]
  simp only [hdev]
  simp only [if_true]
  refine ⟨by trivial, ?_, ?_, ?_⟩
  · simp only [transitionDelete, consult]
    exact hfil
  · simp [transitionDelete, consult]
  · simp [transitionDelete, consult, unstageNoopTrace]

theorem NodeUnpublishVolume_noop {w : World} {req : NodeUnpublishVolumeRequest}
    {s : NodeState}
    (h1 : ¬ req.volumeId.length = 0) (h2 : ¬ req.targetPath.length = 0)
    (hfree : req.volumeId ∉ s.transition)
    (hnm : w.notMountPointRes (s.clock + 1) req.targetPath = (true, none) ∨
      ∃ b e, w.notMountPointRes (s.clock + 1) req.targetPath = (b, some e) ∧
        e.isNotExist = true) :
    (NodeUnpublishVolume w req s).1 = .ok {} ∧
    (NodeUnpublishVolume w req s).2.transition = s.transition ∧
    (NodeUnpublishVolume w req s).2.clock = s.clock + 3 ∧
    (NodeUnpublishVolume w req s).2.trace =
      s.trace ++ unpublishNoopTrace req.volumeId req.targetPath := by
  have hfil : List.filter (fun x => decide (x ≠ req.volumeId))
      (req.volumeId :: s.transition) = s.transition := by
    have h0 : List.filter (fun x => decide (x ≠ req.volumeId))
        (req.volumeId :: s.transition) =
        List.filter (fun x => decide (x ≠ req.volumeId)) s.transition := by simp
    rw [h0]
    exact List.filter_eq_self.mpr (fun a ha =>
      decide_eq_true (fun hEq => hfree (hEq ▸ ha)))
  unfold NodeUnpublishVolume
  dsimp only
  rw [if_neg h1, if_neg h2]
  unfold transitionInsert
  rw [if_neg hfree]
  dsimp only
  unfold nodeUnpublishVolumeOp unmount notMountPointOp
  simp only [consult]
  rcases hnm with hA | ⟨b, e, hB, hex⟩
  · simp only [hA, Option.isNone_none, Bool.true_and, osIsNotExist, Bool.or_false, if_true]
    refine ⟨by trivial, ?_, ?_, ?_⟩
    · simp only [transitionDelete, consult]
      exact hfil
    · simp [transitionDelete, consult]
    · simp [transitionDelete, consult, unpublishNoopTrace]
  · simp only [hB, osIsNotExist, hex, Option.isNone_some, Bool.false_and, Bool.false_or,
      if_true]
    refine ⟨by trivial, ?_, ?_, ?_⟩
    · simp only [transitionDelete, consult]
      exact hfil
    · simp [transitionDelete, consult]
    · simp [transitionDelete, consult, unpublishNoopTrace]

/-- Claim C7: Unstage on a staging path whose mount reference count is
zero, and Unpublish on a target that is not a mount point or does not
exist, return success; the emitted trace holds no unmount and no detach
call; and repeating the teardown after the first success succeeds again. -/
theorem C7_idempotent_teardown (cfg : Config) (w : World)
    (requ : NodeUnstageVolumeRequest) (reqp : NodeUnpublishVolumeRequest)
    (s sp : NodeState) (dev : String)
    (hu1 : ¬ requ.volumeId = "") (hu2 : ¬ requ.stagingTargetPath.length = 0)
    (hufree : requ.volumeId ∉ s.transition)
    (hdev : ∀ k, w.getDeviceNameRes k requ.stagingTargetPath = .ok (dev, 0))
    (hp1 : ¬ reqp.volumeId.length = 0) (hp2 : ¬ reqp.targetPath.length = 0)
    (hpfree : reqp.volumeId ∉ sp.transition)
    (hnm : ∀ k, w.notMountPointRes k reqp.targetPath = (true, none) ∨
      ∃ b e, w.notMountPointRes k reqp.targetPath = (b, some e) ∧ e.isNotExist = true) :
    ((NodeUnstageVolume cfg w requ s).1 = .ok {} ∧
     (NodeUnstageVolume cfg w requ (NodeUnstageVolume cfg w requ s).2).1 = .ok {} ∧
     (NodeUnstageVolume cfg w requ s).2.trace =
       s.trace ++ unstageNoopTrace requ.volumeId requ.stagingTargetPath) ∧
    ((NodeUnpublishVolume w reqp sp).1 = .ok {} ∧
     (NodeUnpublishVolume w reqp (NodeUnpublishVolume w reqp sp).2).1 = .ok {} ∧
     (NodeUnpublishVolume w reqp sp).2.trace =
       sp.trace ++ unpublishNoopTrace reqp.volumeId reqp.targetPath) ∧
    (∀ t, Effect.mounterUnmount t ∉ unstageNoopTrace requ.volumeId requ.stagingTargetPath) ∧
    (∀ i p, Effect.iscsiDisconnect i p ∉
      unstageNoopTrace requ.volumeId requ.stagingTargetPath) ∧
    (∀ t, Effect.mounterUnmount t ∉ unpublishNoopTrace reqp.volumeId reqp.targetPath) := by
  obtain ⟨ha1, ha2, ha3, ha4⟩ := NodeUnstageVolume_noop hu1 hu2 hufree (hdev (s.clock + 1))
  obtain ⟨hb1, hb2, hb3, hb4⟩ := NodeUnstageVolume_noop hu1 hu2
    (show requ.volumeId ∉ (NodeUnstageVolume cfg w requ s).2.transition by
      rw [ha2]; exact hufree)
    (hdev ((NodeUnstageVolume cfg w requ s).2.clock + 1))
  obtain ⟨hc1, hc2, hc3, hc4⟩ := NodeUnpublishVolume_noop hp1 hp2 hpfree (hnm (sp.clock + 1))
  obtain ⟨hd1, hd2, hd3, hd4⟩ := NodeUnpublishVolume_noop hp1 hp2
    (show reqp.volumeId ∉ (NodeUnpublishVolume w reqp sp).2.transition by
      rw [hc2]; exact hpfree)
    (hnm ((NodeUnpublishVolume w reqp sp).2.clock + 1))
  refine ⟨⟨ha1, hb1, ha4⟩, ⟨hc1, hd1, hc4⟩, ?_, ?_, ?_⟩
  · intro t ht
    simp [unstageNoopTrace] at ht
  · intro i p ht
    simp [unstageNoopTrace] at ht
  · intro t ht
    simp [unpublishNoopTrace] at ht

/-- An environment whose staging target reports reference count zero. -/
def refzeroWorld : World :=
  { okWorld with getDeviceNameRes := fun _ _ => Except.ok ("/dev/sdx", 0) }

/-- Witness for C7: repeated Unstage and Unpublish on unmounted targets. -/
theorem C7_idempotent_teardown_witness :
    (NodeUnstageVolume cfg3 refzeroWorld
      { volumeId := "vol1", stagingTargetPath := "/stage/vol1" } s0).1 = .ok {} ∧
    (NodeUnstageVolume cfg3 refzeroWorld
      { volumeId := "vol1", stagingTargetPath := "/stage/vol1" }
      (NodeUnstageVolume cfg3 refzeroWorld
        { volumeId := "vol1", stagingTargetPath := "/stage/vol1" } s0).2).1 = .ok {} ∧
    (NodeUnpublishVolume refzeroWorld
      { volumeId := "vol1", targetPath := "/t/vol1" } s0).1 = .ok {} := by
  obtain ⟨⟨h1, h2, -⟩, ⟨h3, -, -⟩, -⟩ := C7_idempotent_teardown cfg3 refzeroWorld
    { volumeId := "vol1", stagingTargetPath := "/stage/vol1" }
    { volumeId := "vol1", targetPath := "/t/vol1" } s0 s0 "/dev/sdx"
    (by decide) (by decide) (by decide) (fun k => rfl)
    (by decide) (by decide) (by decide) (fun k => Or.inl rfl)
  exact ⟨h1, h2, h3⟩

/-- Claim C9: any volume ID that is not under an in-flight operation when a
mutating RPC starts is not in the transition set when that RPC completes —
the guard entry created at RPC entry is removed on every exit path, for
all four mutating RPCs. -/
theorem C9_guaranteed_release (cfg : Config) (w : World) (v : String)
    (req1 : NodeStageVolumeRequest) (req2 : NodeUnstageVolumeRequest)
    (req3 : NodePublishVolumeRequest) (req4 : NodeUnpublishVolumeRequest)
    (s1 s2 s3 s4 : NodeState)
    (h1 : v ∉ s1.transition) (h2 : v ∉ s2.transition)
    (h3 : v ∉ s3.transition) (h4 : v ∉ s4.transition) :
    v ∉ (NodeStageVolume cfg w req1 s1).2.transition ∧
    v ∉ (NodeUnstageVolume cfg w req2 s2).2.transition ∧
    v ∉ (NodePublishVolume w req3 s3).2.transition ∧
    v ∉ (NodeUnpublishVolume w req4 s4).2.transition := by
  refine ⟨?_, ?_, ?_, ?_⟩
  · rcases (NodeStageVolume_run cfg w req1 s1).1 with h | h <;> rw [h]
    · exact h1
    · intro hv
      exact h1 (List.mem_of_mem_filter hv)
  · rcases (NodeUnstageVolume_run cfg w req2 s2).1 with h | h <;> rw [h]
    · exact h2
    · intro hv
      exact h2 (List.mem_of_mem_filter hv)
  · rcases (NodePublishVolume_run w req3 s3).1 with h | h <;> rw [h]
    · exact h3
    · intro hv
      exact h3 (List.mem_of_mem_filter hv)
  · rcases (NodeUnpublishVolume_run w req4 s4).1 with h | h <;> rw [h]
    · exact h4
    · intro hv
      exact h4 (List.mem_of_mem_filter hv)

/-- A publish request used by witnesses. -/
def pubReq : NodePublishVolumeRequest :=
  { volumeId := "vol1", targetPath := "/t/vol1", stagingTargetPath := "/stage/vol1"
    volumeCapability := some capEmptyFs, readonly := false }

/-- Witness for C9 on concrete runs of all four RPCs. -/
theorem C9_guaranteed_release_witness :
    "vol1" ∉ (NodeStageVolume cfg3 okWorld stageReqEmptyFs s0).2.transition ∧
    "vol1" ∉ (NodeUnstageVolume cfg3 okWorld
      { volumeId := "vol1", stagingTargetPath := "/stage/vol1" } s0).2.transition ∧
    "vol1" ∉ (NodePublishVolume okWorld pubReq s0).2.transition ∧
    "vol1" ∉ (NodeUnpublishVolume okWorld
      { volumeId := "vol1", targetPath := "/t/vol1" } s0).2.transition :=
  C9_guaranteed_release cfg3 okWorld "vol1" stageReqEmptyFs
    { volumeId := "vol1", stagingTargetPath := "/stage/vol1" } pubReq
    { volumeId := "vol1", targetPath := "/t/vol1" } s0 s0 s0 s0
    (by decide) (by decide) (by decide) (by decide)

/-- A Stage request whose VolumeID carries the name marker. -/
def stageReqPvc : NodeStageVolumeRequest :=
  { volumeId := "pvc-vol1", stagingTargetPath := "/stage/pvc-vol1"
    volumeCapability := some capEmptyFs }

/-- An Unstage request whose VolumeID carries the name marker. -/
def unstageReqPvc : NodeUnstageVolumeRequest :=
  { volumeId := "pvc-vol1", stagingTargetPath := "/stage/pvc-vol1" }

/-- The in-process state right after a Stage of "pvc-vol1" has acquired
its guard: the normalized key "vol1" is held. -/
def sMidStage : NodeState :=
  { transition := ["vol1"], clock := 1, trace := [Effect.guardInsert "vol1" true] }

/-- Counterexample to claim C1 as stated: a Stage of VolumeID "pvc-vol1"
locks the normalized key "vol1" (first conjunct: its first action is that
guard acquisition), yet while that key is held, a concurrent
NodeUnstageVolume for the same VolumeID "pvc-vol1" locks the raw key,
passes the guard, succeeds, and unmounts — so of two concurrently issued
mutating calls on VolumeID "pvc-vol1", both proceed past the Transition
Guard and the second performs side effects. -/
theorem C1_counterexample :
    (NodeStageVolume cfg3 okWorld stageReqPvc s0).2.trace.head? =
      some (Effect.guardInsert "vol1" true) ∧
    (NodeUnstageVolume cfg3 okWorld unstageReqPvc sMidStage).1 = .ok {} ∧
    Effect.guardInsert "pvc-vol1" true ∈
      (NodeUnstageVolume cfg3 okWorld unstageReqPvc sMidStage).2.trace ∧
    Effect.mounterUnmount "/stage/pvc-vol1" ∈
      (NodeUnstageVolume cfg3 okWorld unstageReqPvc sMidStage).2.trace := by
  refine ⟨by decide, rfl, by decide, by decide⟩

theorem transitionInsert_of_mem {id : String} {s : NodeState} (h : id ∈ s.transition) :
    transitionInsert id s = (false, consult (Effect.guardInsert id false) s) := by
  unfold transitionInsert
  rw [if_pos h]

theorem transitionInsert_of_not_mem {id : String} {s : NodeState} (h : id ∉ s.transition) :
    transitionInsert id s = (true,
      { consult (Effect.guardInsert id true) s with transition := id :: s.transition }) := by
  unfold transitionInsert
  rw [if_neg h]

/-- Claim C1 amended: mutual exclusion holds per lock key. Of two
concurrent acquisitions of the same key, exactly one succeeds; an RPC
whose lock key is already held returns Aborted with only the failed guard
probe recorded (no external call, transition set unchanged); acquisitions
of a different key are unaffected.  NodeStageVolume locks the
stripName-normalized ID while Unstage/Publish/Unpublish lock the raw
request ID, so a Stage and a teardown call on the same marker-carrying
VolumeID use different keys and are not mutually exclusive. -/
theorem C1_amended (cfg : Config) (w : World) (id id2 : String) (s : NodeState)
    (hfree : id ∉ s.transition) (hne : id2 ≠ id)
    (req1 : NodeStageVolumeRequest) (rp : nodeStageRequest) (s1 : NodeState)
    (hval : validateStagingReq cfg req1 = .ok rp) (hheld1 : rp.volumeID ∈ s1.transition)
    (req2 : NodeUnstageVolumeRequest) (s2 : NodeState)
    (hu1 : ¬ req2.volumeId = "") (hu2 : ¬ req2.stagingTargetPath.length = 0)
    (hheld2 : req2.volumeId ∈ s2.transition)
    (req3 : NodePublishVolumeRequest) (volCap : VolumeCapability) (s3 : NodeState)
    (hp1 : ¬ req3.volumeId.length = 0) (hp2 : ¬ req3.targetPath.length = 0)
    (hpc : req3.volumeCapability = some volCap)
    (hpv : isValidVolumeCapabilities [volCap] = true)
    (hheld3 : req3.volumeId ∈ s3.transition)
    (req4 : NodeUnpublishVolumeRequest) (s4 : NodeState)
    (hq1 : ¬ req4.volumeId.length = 0) (hq2 : ¬ req4.targetPath.length = 0)
    (hheld4 : req4.volumeId ∈ s4.transition) :
    ((transitionInsert id s).1 = true ∧
     (transitionInsert id (transitionInsert id s).2).1 = false) ∧
    ((transitionInsert id2 (transitionInsert id s).2).1 = (transitionInsert id2 s).1) ∧
    (NodeStageVolume cfg w req1 s1 =
      (.error (.grpc .aborted ("an operation on this volume=" ++ rp.volumeID ++
        " is already in progress")),
       consult (Effect.guardInsert rp.volumeID false) s1)) ∧
    (NodeUnstageVolume cfg w req2 s2 =
      (.error (.grpc .aborted ("an operation on this volume=" ++ req2.volumeId ++
        " is already in progress")),
       consult (Effect.guardInsert req2.volumeId false) s2)) ∧
    (NodePublishVolume w req3 s3 =
      (.error (.grpc .aborted ("an operation on this volume=" ++ req3.volumeId ++
        " is already in progress")),
       consult (Effect.guardInsert req3.volumeId false) s3)) ∧
    (NodeUnpublishVolume w req4 s4 =
      (.error (.grpc .aborted ("an operation on this volume=" ++ req4.volumeId ++
        " is already in progress")),
       consult (Effect.guardInsert req4.volumeId false) s4)) := by
  have hins := transitionInsert_of_not_mem hfree
  have hsnd : (transitionInsert id s).2.transition = id :: s.transition := by
    rw [hins]
  refine ⟨⟨?_, ?_⟩, ?_, ?_, ?_, ?_, ?_⟩
  · rw [hins]
  · rw [transitionInsert_of_mem (show id ∈ (transitionInsert id s).2.transition by
      rw [hsnd]; exact List.mem_cons_self id s.transition)]
  · by_cases hmem : id2 ∈ s.transition
    · rw [transitionInsert_of_mem (show id2 ∈ (transitionInsert id s).2.transition by
        rw [hsnd]; exact List.mem_cons_of_mem id hmem),
        transitionInsert_of_mem hmem]
    · have hnm : id2 ∉ (transitionInsert id s).2.transition := by
        rw [hsnd]
        intro hc
        rcases List.mem_cons.1 hc with hc | hc
        · exact hne hc
        · exact hmem hc
      rw [transitionInsert_of_not_mem hnm, transitionInsert_of_not_mem hmem]
  · unfold NodeStageVolume
    split
    next e heq =>
      rw [hval] at heq
      exact Except.noConfusion heq
    next rp2 heq =>
      rw [hval] at heq
      injection heq with h
      subst h
      unfold transitionInsert
      rw [if_pos hheld1]
  · unfold NodeUnstageVolume
    dsimp only
    rw [if_neg hu1, if_neg hu2]
    unfold transitionInsert
    rw [if_pos hheld2]
  · unfold NodePublishVolume
    dsimp only
    rw [if_neg hp1, if_neg hp2, hpc]
    dsimp only
    rw [if_neg (by simp [hpv])]
    unfold transitionInsert
    rw [if_pos hheld3]
  · unfold NodeUnpublishVolume
    dsimp only
    rw [if_neg hq1, if_neg hq2]
    unfold transitionInsert
    rw [if_pos hheld4]

/-- A state in which the key "vol1" is held. -/
def sHeld : NodeState := { transition := ["vol1"], clock := 0, trace := [] }

/-- Witness for the amended C1 at concrete keys and states. -/
theorem C1_amended_witness :
    (transitionInsert "vol1" s0).1 = true ∧
    (transitionInsert "vol1" (transitionInsert "vol1" s0).2).1 = false ∧
    NodeUnstageVolume cfg3 okWorld
      { volumeId := "vol1", stagingTargetPath := "/stage/vol1" } sHeld =
      (.error (.grpc .aborted ("an operation on this volume=" ++ "vol1" ++
        " is already in progress")),
       consult (Effect.guardInsert "vol1" false) sHeld) := by
  obtain ⟨⟨w1, w2⟩, -, -, w4, -, -⟩ := C1_amended cfg3 okWorld "vol1" "other" s0
    (by decide) (by decide)
    stageReqEmptyFs { stagingPath := "/stage/vol1", fsType := "ext4", volumeID := "vol1" }
    sHeld (by rfl) (by decide)
    { volumeId := "vol1", stagingTargetPath := "/stage/vol1" } sHeld
    (by decide) (by decide) (by decide)
    pubReq capEmptyFs sHeld (by decide) (by decide) rfl (by decide) (by decide)
    { volumeId := "vol1", targetPath := "/t/vol1" } sHeld
    (by decide) (by decide) (by decide)
  exact ⟨w1, w2, w4⟩

/-- Counterexample to claim C4 as stated: NodeUnstageVolume locks the raw
request-supplied ID. For VolumeID "pvc-vol1" the normalized ID is "vol1",
yet the guard entry recorded by the Unstage run is for "pvc-vol1". -/
theorem C4_counterexample :
    stripName cfg3.pfx "pvc-vol1" = "vol1" ∧
    ("pvc-vol1" : String) ≠ "vol1" ∧
    Effect.guardInsert "pvc-vol1" true ∈
      (NodeUnstageVolume cfg3 okWorld unstageReqPvc s0).2.trace ∧
    Effect.guardInsert "vol1" true ∉
      (NodeUnstageVolume cfg3 okWorld unstageReqPvc s0).2.trace := by
  refine ⟨by decide, by decide, by decide, by decide⟩

/-- Claim C4 amended: NodeStageVolume normalizes the request-supplied ID
before using it as the lock key, but NodeUnstageVolume, NodePublishVolume
and NodeUnpublishVolume use the raw request ID as the lock key; the
volume-record keys do pass through stripName — NodeUnstageVolume fetches
under the normalized ID, and NodeStageVolume fetches under the once-
normalized (re-fetch) or twice-normalized (poll) ID. -/
theorem C4_amended (cfg : Config) (w : World)
    (req1 : NodeStageVolumeRequest) (req2 : NodeUnstageVolumeRequest)
    (req3 : NodePublishVolumeRequest) (req4 : NodeUnpublishVolumeRequest)
    (s1 s2 s3 s4 : NodeState)
    (e1 : s1.trace = []) (e2 : s2.trace = []) (e3 : s3.trace = []) (e4 : s4.trace = []) :
    (∀ id ok, Effect.guardInsert id ok ∈ (NodeStageVolume cfg w req1 s1).2.trace →
      id = stripName cfg.pfx req1.volumeId) ∧
    (∀ id ok, Effect.guardInsert id ok ∈ (NodeUnstageVolume cfg w req2 s2).2.trace →
      id = req2.volumeId) ∧
    (∀ id ok, Effect.guardInsert id ok ∈ (NodePublishVolume w req3 s3).2.trace →
      id = req3.volumeId) ∧
    (∀ id ok, Effect.guardInsert id ok ∈ (NodeUnpublishVolume w req4 s4).2.trace →
      id = req4.volumeId) ∧
    (∀ k, Effect.clientGet k ∈ (NodeUnstageVolume cfg w req2 s2).2.trace →
      k = stripName cfg.pfx req2.volumeId) ∧
    (∀ k, Effect.clientGet k ∈ (NodeStageVolume cfg w req1 s1).2.trace →
      k = stripName cfg.pfx (stripName cfg.pfx req1.volumeId) ∨
      k = stripName cfg.pfx req1.volumeId) := by
  obtain ⟨-, ext1, ht1, hP1⟩ := NodeStageVolume_run cfg w req1 s1
  obtain ⟨-, ext2, ht2, hP2⟩ := NodeUnstageVolume_run cfg w req2 s2
  obtain ⟨-, ext3, ht3, hP3⟩ := NodePublishVolume_run w req3 s3
  obtain ⟨-, ext4, ht4, hP4⟩ := NodeUnpublishVolume_run w req4 s4
  rw [e1] at ht1
  rw [e2] at ht2
  rw [e3] at ht3
  rw [e4] at ht4
  simp only [List.nil_append] at ht1 ht2 ht3 ht4
  refine ⟨?_, ?_, ?_, ?_, ?_, ?_⟩
  · intro id ok hmem
    rw [ht1] at hmem
    rcases hP1 _ hmem with ⟨ok2, heq⟩ | heq | ⟨rp, hv, hbody⟩
    · injection heq with ha hb
    · exact Effect.noConfusion heq
    · exfalso
      rcases hbody with (⟨n, he⟩ | he | he) | he | ⟨a, he⟩ | ⟨c, he⟩ | he |
          ⟨v, he, -⟩ | ⟨p, he⟩ | (he | ⟨p2, he⟩ | ⟨d, o, he⟩) <;>
        exact Effect.noConfusion he
  · intro id ok hmem
    rw [ht2] at hmem
    rcases hP2 _ hmem with ⟨ok2, heq⟩ | heq | hbody
    · injection heq with ha hb
    · exact Effect.noConfusion heq
    · exfalso
      rcases hbody with he | he | (he | he) | ⟨i, p, he⟩ | ⟨p, he⟩ <;>
        exact Effect.noConfusion he
  · intro id ok hmem
    rw [ht3] at hmem
    rcases hP3 _ hmem with ⟨ok2, heq⟩ | heq | hbody
    · injection heq with ha hb
    · exact Effect.noConfusion heq
    · exfalso
      rcases hbody with he | ⟨p, he⟩ | ⟨p, he⟩ | ⟨f, o, he⟩ | he <;>
        exact Effect.noConfusion he
  · intro id ok hmem
    rw [ht4] at hmem
    rcases hP4 _ hmem with ⟨ok2, heq⟩ | heq | hbody
    · injection heq with ha hb
    · exact Effect.noConfusion heq
    · exfalso
      rcases hbody with he | he <;> exact Effect.noConfusion he
  · intro k hmem
    rw [ht2] at hmem
    rcases hP2 _ hmem with ⟨ok2, heq⟩ | heq | hbody
    · exact Effect.noConfusion heq
    · exact Effect.noConfusion heq
    · rcases hbody with he | he | (he | he) | ⟨i, p, he⟩ | ⟨p, he⟩
      · exact Effect.noConfusion he
      · exact Effect.noConfusion he
      · exact Effect.noConfusion he
      · injection he with ha
      · exact Effect.noConfusion he
      · exact Effect.noConfusion he
  · intro k hmem
    rw [ht1] at hmem
    rcases hP1 _ hmem with ⟨ok2, heq⟩ | heq | ⟨rp, hv, hbody⟩
    · exact Effect.noConfusion heq
    · exact Effect.noConfusion heq
    · obtain ⟨hvid, -, -⟩ := validateStagingReq_ok hv
      rcases hbody with (⟨n, he⟩ | he | he) | he | ⟨a, he⟩ | ⟨c, he⟩ | he |
          ⟨v, he, -⟩ | ⟨p, he⟩ | (he | ⟨p2, he⟩ | ⟨d, o, he⟩)
      · exact Effect.noConfusion he
      · exact Effect.noConfusion he
      · injection he with ha
        left
        rw [ha, hvid]
      · exact Effect.noConfusion he
      · exact Effect.noConfusion he
      · exact Effect.noConfusion he
      · injection he with ha
        right
        rw [ha, hvid]
      · exact Effect.noConfusion he
      · exact Effect.noConfusion he
      · exact Effect.noConfusion he
      · exact Effect.noConfusion he
      · exact Effect.noConfusion he

/-- Witness for the amended C4: the guard key recorded by a concrete
Unstage run of "pvc-vol1" is the raw ID, whose normalization is "vol1". -/
theorem C4_amended_witness :
    ("pvc-vol1" : String) = unstageReqPvc.volumeId ∧
    stripName cfg3.pfx unstageReqPvc.volumeId = "vol1" := by
  constructor
  · exact (C4_amended cfg3 okWorld stageReqPvc unstageReqPvc pubReq
      { volumeId := "vol1", targetPath := "/t/vol1" } s0 s0 s0 s0
      rfl rfl rfl rfl).2.1 "pvc-vol1" true (by decide)
  · decide

/-- Counterexample to claim C3 as stated: a concrete Stage request with an
empty declared filesystem type succeeds, persists fsType "ext4" into the
record mountInfo, but the format-and-mount call receives the raw empty
fsType, not the resolved default — the full trace shows the single
formatAndMountCall carries "". -/
theorem C3_counterexample :
    (NodeStageVolume cfg3 okWorld stageReqEmptyFs s0).1 = .ok {} ∧
    (NodeStageVolume cfg3 okWorld stageReqEmptyFs s0).2.trace =
      [Effect.guardInsert "vol1" true, Effect.sleep 0, Effect.clientSet,
       Effect.clientGet "vol1", Effect.mounterList, Effect.netDial "10.0.0.1:3260",
       Effect.iscsiConnect
         { volumeName := "vol1", targetIqn := "iqn.vol1", lun := 0, iface := "default",
           targetPortals := ["10.0.0.1:3260"], doDiscovery := true },
       Effect.clientGet "vol1",
       Effect.clientUpdate (stagedRecord readyVol
         { stagingPath := "/stage/vol1", fsType := "ext4", volumeID := "vol1" } "/dev/sdx"),
       Effect.mkdirAll "/stage/vol1" 488, Effect.isLikelyNotMountPoint "/stage/vol1",
       Effect.formatAndMountCall "/dev/sdx" "/stage/vol1" "" [], Effect.guardDelete "vol1"] ∧
    (stagedRecord readyVol
      { stagingPath := "/stage/vol1", fsType := "ext4", volumeID := "vol1" }
      "/dev/sdx").spec.mountInfo.fsType = "ext4" ∧
    ("" : String) ≠ "ext4" := by
  refine ⟨rfl, by decide, by decide, by decide⟩

/-- Claim C3 amended: for a Stage request with an empty declared fsType,
the resolved default "ext4" is the validated fsType and is what every
persisted record carries in its mountInfo, while every format-and-mount
call receives the raw request fsType — the empty string, not the
default. -/
theorem C3_amended (cfg : Config) (w : World) (req : NodeStageVolumeRequest)
    (s : NodeState) (hs : s.trace = []) (hfs : reqRawFsType req = "") :
    (∀ rp, validateStagingReq cfg req = .ok rp → rp.fsType = defaultFsType) ∧
    (∀ v, Effect.clientUpdate v ∈ (NodeStageVolume cfg w req s).2.trace →
      v.spec.mountInfo.fsType = defaultFsType) ∧
    (∀ d t f o, Effect.formatAndMountCall d t f o ∈
      (NodeStageVolume cfg w req s).2.trace → f = "") := by
  have hdef : ∀ rp, validateStagingReq cfg req = .ok rp → rp.fsType = defaultFsType := by
    intro rp hv
    obtain ⟨-, -, hfsv⟩ := validateStagingReq_ok hv
    rw [hfsv, hfs]
    rfl
  obtain ⟨-, ext1, ht1, hP1⟩ := NodeStageVolume_run cfg w req s
  rw [hs] at ht1
  simp only [List.nil_append] at ht1
  refine ⟨hdef, ?_, ?_⟩
  · intro v hmem
    rw [ht1] at hmem
    rcases hP1 _ hmem with ⟨ok2, heq⟩ | heq | ⟨rp, hv, hbody⟩
    · exact Effect.noConfusion heq
    · exact Effect.noConfusion heq
    · rcases hbody with (⟨n, he⟩ | he | he) | he | ⟨a, he⟩ | ⟨c, he⟩ | he |
          ⟨v2, he, hfst, -⟩ | ⟨p, he⟩ | (he | ⟨p2, he⟩ | ⟨d, o, he⟩)
      · exact Effect.noConfusion he
      · exact Effect.noConfusion he
      · exact Effect.noConfusion he
      · exact Effect.noConfusion he
      · exact Effect.noConfusion he
      · exact Effect.noConfusion he
      · exact Effect.noConfusion he
      · injection he with ha
        rw [ha, hfst]
        exact hdef rp hv
      · exact Effect.noConfusion he
      · exact Effect.noConfusion he
      · exact Effect.noConfusion he
      · exact Effect.noConfusion he
  · intro d t f o hmem
    rw [ht1] at hmem
    rcases hP1 _ hmem with ⟨ok2, heq⟩ | heq | ⟨rp, hv, hbody⟩
    · exact Effect.noConfusion heq
    · exact Effect.noConfusion heq
    · rcases hbody with (⟨n, he⟩ | he | he) | he | ⟨a, he⟩ | ⟨c, he⟩ | he |
          ⟨v2, he, -⟩ | ⟨p, he⟩ | (he | ⟨p2, he⟩ | ⟨d2, o2, he⟩)
      · exact Effect.noConfusion he
      · exact Effect.noConfusion he
      · exact Effect.noConfusion he
      · exact Effect.noConfusion he
      · exact Effect.noConfusion he
      · exact Effect.noConfusion he
      · exact Effect.noConfusion he
      · exact Effect.noConfusion he
      · exact Effect.noConfusion he
      · exact Effect.noConfusion he
      · exact Effect.noConfusion he
      · injection he with h1 h2 h3 h4
        rw [h3, hfs]

/-- Witness for the amended C3: the record persisted by a concrete run
with empty declared fsType carries the default. -/
theorem C3_amended_witness :
    (stagedRecord readyVol
      { stagingPath := "/stage/vol1", fsType := "ext4", volumeID := "vol1" }
      "/dev/sdx").spec.mountInfo.fsType = defaultFsType :=
  (C3_amended cfg3 okWorld stageReqEmptyFs s0 rfl (by decide)).2.1 _ (by decide)

/-- The state right after a successful guard acquisition for `id`. -/
def insertState (id : String) (s : NodeState) : NodeState :=
  { consult (Effect.guardInsert id true) s with transition := id :: s.transition }

/-- An environment whose record-store reads always fail with a plain
(non-NotFound) error. -/
def getFailWorld : World :=
  { okWorld with clientGetRes := fun _ _ => Except.error { msg := "etcd timeout" } }

/-- An environment whose record store serves the ready record during the
poll (call clocks below 7) but fails at the re-fetch after attach. -/
def refetchFailWorld : World :=
  { okWorld with clientGetRes := fun k _ =>
      if k < 7 then Except.ok readyVol else Except.error { msg := "conflict" } }

/-- Counterexample to claim C5 as stated: a record-store read failure
during the readiness poll is surfaced as FailedPrecondition — the Internal
classification survives only inside the message text — and a re-fetch
failure after attach is returned as the raw store error with no gRPC
status, so neither is surfaced as Internal. -/
theorem C5_counterexample :
    (NodeStageVolume cfg3 getFailWorld stageReqEmptyFs s0).1 =
      .error (.grpc .failedPrecondition (Err.message (.grpc .internal "etcd timeout"))) ∧
    (∀ msg, (NodeStageVolume cfg3 getFailWorld stageReqEmptyFs s0).1 ≠
      .error (.grpc .internal msg)) ∧
    (NodeStageVolume cfg3 refetchFailWorld stageReqEmptyFs s0).1 =
      .error (.go { msg := "conflict" }) ∧
    (∀ msg, (NodeStageVolume cfg3 refetchFailWorld stageReqEmptyFs s0).1 ≠
      .error (.grpc .internal msg)) := by
  have h1 : (NodeStageVolume cfg3 getFailWorld stageReqEmptyFs s0).1 =
      .error (.grpc .failedPrecondition (Err.message (.grpc .internal "etcd timeout"))) := rfl
  have h2 : (NodeStageVolume cfg3 refetchFailWorld stageReqEmptyFs s0).1 =
      .error (.go { msg := "conflict" }) := rfl
  refine ⟨h1, ?_, h2, ?_⟩
  · intro msg hc
    rw [h1] at hc
    injection hc with h3
    injection h3 with h4 h5
    exact Code.noConfusion h4
  · intro msg hc
    rw [h2] at hc
    injection hc with h3
    exact Err.noConfusion h3

/-- Claim C5 amended: doesVolumeExist classifies store failures as
NotFound (missing record) or Internal, but NodeStageVolume re-wraps every
readiness-poll error as FailedPrecondition; a failed re-fetch after attach
is returned as the raw store error with no status code; only the mountInfo
persistence failure is surfaced as Internal. -/
theorem C5_amended (cfg : Config) (w : World) (req : NodeStageVolumeRequest)
    (rp : nodeStageRequest) (s : NodeState)
    (hval : validateStagingReq cfg req = .ok rp)
    (hfree : rp.volumeID ∉ s.transition) :
    (∀ sx g, w.clientSetRes sx.clock = none →
      w.clientGetRes (sx.clock + 1) (stripName cfg.pfx rp.volumeID) = .error g →
      (doesVolumeExist cfg w rp.volumeID sx).1 =
        .error (.grpc (if g.isNotFound then .notFound else .internal) g.msg)) ∧
    (∀ e sA,
      waitForVolumeToBeReady cfg w rp.volumeID (insertState rp.volumeID s) = (.error e, sA) →
      (NodeStageVolume cfg w req s).1 = .error (.grpc .failedPrecondition e.message)) ∧
    (∀ inst sA sB sC dev sD g,
      waitForVolumeToBeReady cfg w rp.volumeID (insertState rp.volumeID s) = (.ok inst, sA) →
      isAlreadyMounted w rp.volumeID rp.stagingPath sA = (none, sB) →
      waitForVolumeToBeReachable cfg w (targetPortal inst.spec.iscsiSpec) sB = (none, sC) →
      attachDisk w inst sC = (.ok dev, sD) →
      w.clientGetRes sD.clock rp.volumeID = .error g →
      (NodeStageVolume cfg w req s).1 = .error (.go g)) ∧
    (∀ inst sA sB sC dev sD inst2 g,
      waitForVolumeToBeReady cfg w rp.volumeID (insertState rp.volumeID s) = (.ok inst, sA) →
      isAlreadyMounted w rp.volumeID rp.stagingPath sA = (none, sB) →
      waitForVolumeToBeReachable cfg w (targetPortal inst.spec.iscsiSpec) sB = (none, sC) →
      attachDisk w inst sC = (.ok dev, sD) →
      w.clientGetRes sD.clock rp.volumeID = .ok inst2 →
      w.clientUpdateRes (sD.clock + 1) (stagedRecord inst2 rp dev) = some g →
      (NodeStageVolume cfg w req s).1 = .error (.grpc .internal g.msg)) := by
  have hIS : insertState rp.volumeID s =
      { transition := rp.volumeID :: s.transition
        clock := (consult (Effect.guardInsert rp.volumeID true) s).clock
        trace := (consult (Effect.guardInsert rp.volumeID true) s).trace } := rfl
  refine ⟨?_, ?_, ?_, ?_⟩
  · intro sx g hset hget
    unfold doesVolumeExist clientSetOp clientGetOp
    simp only [consult]
    rw [hset]
    simp only [hget]
    cases hnf : g.isNotFound
    · simp [hnf]
    · simp [hnf]
  · intro e sA hpoll
    rw [hIS] at hpoll
    unfold NodeStageVolume
    split
    next e2 heq =>
      rw [hval] at heq
      exact Except.noConfusion heq
    next rp2 heq =>
      rw [hval] at heq
      injection heq with h
      subst h
      unfold transitionInsert
      rw [if_neg hfree]
      dsimp only
      unfold nodeStageVolumeOp
      rw [hpoll]
  · intro inst sA sB sC dev sD g hpoll hmnt hreach hatt hget2
    rw [hIS] at hpoll
    unfold NodeStageVolume
    split
    next e2 heq =>
      rw [hval] at heq
      exact Except.noConfusion heq
    next rp2 heq =>
      rw [hval] at heq
      injection heq with h
      subst h
      unfold transitionInsert
      rw [if_neg hfree]
      dsimp only
      unfold nodeStageVolumeOp clientGetOp
      rw [hpoll]
      dsimp only
      rw [hmnt]
      dsimp only
      rw [hreach]
      dsimp only
      rw [hatt]
      dsimp only
      simp only [consult]
      rw [hget2]
  · intro inst sA sB sC dev sD inst2 g hpoll hmnt hreach hatt hget2 hupd
    rw [hIS] at hpoll
    unfold NodeStageVolume
    split
    next e2 heq =>
      rw [hval] at heq
      exact Except.noConfusion heq
    next rp2 heq =>
      rw [hval] at heq
      injection heq with h
      subst h
      unfold transitionInsert
      rw [if_neg hfree]
      dsimp only
      unfold nodeStageVolumeOp clientGetOp clientUpdateOp
      rw [hpoll]
      dsimp only
      rw [hmnt]
      dsimp only
      rw [hreach]
      dsimp only
      rw [hatt]
      dsimp only
      simp only [consult]
      rw [hget2]
      dsimp only
      rw [hupd]

/-- Witness for the amended C5: the poll-failure and re-fetch-failure
scenarios at concrete environments. -/
theorem C5_amended_witness :
    (NodeStageVolume cfg3 getFailWorld stageReqEmptyFs s0).1 =
      .error (.grpc .failedPrecondition (Err.message (.grpc .internal "etcd timeout"))) ∧
    (NodeStageVolume cfg3 refetchFailWorld stageReqEmptyFs s0).1 =
      .error (.go { msg := "conflict" }) := by
  constructor
  · exact (C5_amended cfg3 getFailWorld stageReqEmptyFs
      { stagingPath := "/stage/vol1", fsType := "ext4", volumeID := "vol1" } s0
      (by rfl) (by decide)).2.1 (.grpc .internal "etcd timeout") _ rfl
  · exact (C5_amended cfg3 refetchFailWorld stageReqEmptyFs
      { stagingPath := "/stage/vol1", fsType := "ext4", volumeID := "vol1" } s0
      (by rfl) (by decide)).2.2.1 readyVol _ _ _ "/dev/sdx" _
      { msg := "conflict" } rfl rfl rfl rfl rfl

end JivaCSI
